import Mathlib

/-!
Shallow embedding of the Climate TRACE emissions aggregation service
(`server/services/climateTrace.js` style module, exported through
`src/server/services/ai/providers/base.js` in this repository snapshot).

JavaScript numbers are modelled as rationals (`ℚ`), `Math.round` as
`⌊x + 1/2⌋`, and `Number.toFixed(n)`+`parseFloat` as rounding to `n`
decimal places.  JSON objects whose fields may be absent are modelled
with `Option` fields; the JavaScript `x || 0` idiom becomes `orZero`.
-/

namespace EmissionLens

/-- JavaScript `Math.round`: rounds half towards positive infinity. -/
def jsRound (q : ℚ) : ℤ := ⌊q + 1/2⌋

/-- JavaScript `parseFloat(x.toFixed(2))`, modelled on rationals. -/
def toFixed2 (q : ℚ) : ℚ := (jsRound (q * 100) : ℚ) / 100

/-- JavaScript `parseFloat(x.toFixed(1))`, modelled on rationals. -/
def toFixed1 (q : ℚ) : ℚ := (jsRound (q * 10) : ℚ) / 10

/-- JavaScript `parseFloat(x.toFixed(4))`, modelled on rationals. -/
def toFixed4 (q : ℚ) : ℚ := (jsRound (q * 10000) : ℚ) / 10000

/-- JavaScript `x || 0` applied to a possibly missing numeric field. -/
def orZero : Option ℚ → ℚ
  | none => 0
  | some q => q

/-- JavaScript truthiness of a possibly missing string (missing or `""` is falsy). -/
def truthyStr : Option String → Bool
  | none => false
  | some s => s ≠ ""

/-- Raw per-gas values as delivered by the upstream API; a missing field is `none`. -/
structure RawGasValues where
  co2 : Option ℚ
  ch4 : Option ℚ
  n2o : Option ℚ
  co2e_100yr : Option ℚ
  co2e_20yr : Option ℚ
deriving Repr, DecidableEq

/-- The empty object `{}` used when `worldEmissions` is missing. -/
def RawGasValues.empty : RawGasValues := ⟨none, none, none, none, none⟩

/-- Models `d.emissions` / `d.worldEmissions`, which may be absent. -/
def gasOf (o : Option RawGasValues) : RawGasValues := o.getD RawGasValues.empty

/-- One element of the upstream `/country/emissions` JSON array. -/
structure RawCountryRecord where
  country : Option String
  rank : Option ℤ
  previousRank : Option ℤ
  emissions : Option RawGasValues
  worldEmissions : Option RawGasValues
deriving Repr, DecidableEq

/-- The filter `d => d.country && d.country !== 'all'` from `processCountryEmissions`. -/
def countryFilter (d : RawCountryRecord) : Bool :=
  truthyStr d.country && d.country ≠ some "all"

/-- Normalized per-gas values (CO2 family in megatonnes, CH4/N2O in kilotonnes). -/
structure GasValues where
  co2 : ℤ
  ch4 : ℤ
  n2o : ℤ
  co2e_100yr : ℤ
  co2e_20yr : ℤ
deriving Repr, DecidableEq

/-- One processed country record of `getCountryEmissions`. -/
structure CountryEmission where
  country : String
  name : String
  rank : Option ℤ
  previousRank : Option ℤ
  emissions : GasValues
  share : ℚ
deriving Repr, DecidableEq

/-- `getCountryName`: `countryNameCache[code] || code`. -/
def getCountryName (nameCache : List (String × String)) (code : String) : String :=
  match nameCache.lookup code with
  | some n => if n = "" then code else n
  | none => code

/-- The body of the `.map` in `processCountryEmissions`: unit conversion and share. -/
def mkCountryEmission (nameCache : List (String × String)) (d : RawCountryRecord) :
    CountryEmission :=
  let em := gasOf d.emissions
  let world := gasOf d.worldEmissions
  { country := d.country.getD ""
    name := getCountryName nameCache (d.country.getD "")
    rank := d.rank
    previousRank := d.previousRank
    emissions :=
      { co2 := jsRound (orZero em.co2 / 1000000)
        ch4 := jsRound (orZero em.ch4 / 1000)
        n2o := jsRound (orZero em.n2o / 1000)
        co2e_100yr := jsRound (orZero em.co2e_100yr / 1000000)
        co2e_20yr := jsRound (orZero em.co2e_20yr / 1000000) }
    share :=
      if 0 < orZero world.co2 then
        toFixed2 (orZero em.co2 / orZero world.co2 * 100)
      else 0 }

/-- Models `Array.prototype.sort` with a numeric comparator `(a, b) => key b - key a`
(descending by `key`) as an insertion sort; the claims proved below do not depend
on the order of elements whose keys tie. -/
def insertDescBy (key : α → ℚ) (x : α) : List α → List α
  | [] => [x]
  | y :: ys => if key x ≤ key y then y :: insertDescBy key x ys else x :: y :: ys

/-- Sort a list in descending order of `key`. -/
def sortDescBy (key : α → ℚ) (l : List α) : List α := l.foldr (insertDescBy key) []

/-- World totals of `processCountryEmissions`.  In the success path every gas field
is present; `getEmptyResponse` omits `co2e_20yr`, hence the `Option`. -/
structure WorldTotals where
  co2 : ℤ
  ch4 : ℤ
  n2o : ℤ
  co2e_100yr : ℤ
  co2e_20yr : Option ℤ
deriving Repr, DecidableEq

/-- Response shape of `getCountryEmissions`. -/
structure CountryEmissionsResponse where
  year : ℤ
  yearRangeSince : ℤ
  yearRangeTo : ℤ
  source : String
  dataProvider : String
  lastUpdated : String
  apiStatus : String
  worldTotals : WorldTotals
  countries : List CountryEmission
  topCountries : List CountryEmission
deriving Repr, DecidableEq

/-- Unit conversion of a raw world-emissions object, as written inline in
`processCountryEmissions` (the success path also emits `co2e_20yr`). -/
def mkWorldTotals (worldData : RawGasValues) : WorldTotals :=
  { co2 := jsRound (orZero worldData.co2 / 1000000)
    ch4 := jsRound (orZero worldData.ch4 / 1000)
    n2o := jsRound (orZero worldData.n2o / 1000)
    co2e_100yr := jsRound (orZero worldData.co2e_100yr / 1000000)
    co2e_20yr := some (jsRound (orZero worldData.co2e_20yr / 1000000)) }

/-- `processCountryEmissions(data, since, to)`.  `nowIso` stands for the
`new Date().toISOString()` timestamp, which is an input of the environment. -/
def processCountryEmissions (nameCache : List (String × String)) (nowIso : String)
    (data : List RawCountryRecord) (since toYear : ℤ) : CountryEmissionsResponse :=
  let countries := sortDescBy (fun c => (c.emissions.co2 : ℚ))
    ((data.filter countryFilter).map (mkCountryEmission nameCache))
  let worldData := (data.head?.bind (·.worldEmissions)).getD RawGasValues.empty
  { year := toYear
    yearRangeSince := since
    yearRangeTo := toYear
    source := "Data Source: Climate TRACE"
    dataProvider := "Climate TRACE Coalition"
    lastUpdated := nowIso
    apiStatus := "live"
    worldTotals := mkWorldTotals worldData
    countries := countries
    topCountries := countries.take 20 }

/-- `getEmptyResponse(since, to)`: the error-path response.  Note that its
`worldTotals` object has no `co2e_20yr` field. -/
def getEmptyResponse (nowIso : String) (since toYear : ℤ) : CountryEmissionsResponse :=
  { year := toYear
    yearRangeSince := since
    yearRangeTo := toYear
    source := "Data Source: Climate TRACE (Unavailable)"
    dataProvider := "Climate TRACE Coalition"
    lastUpdated := nowIso
    apiStatus := "error"
    worldTotals := { co2 := 0, ch4 := 0, n2o := 0, co2e_100yr := 0, co2e_20yr := none }
    countries := []
    topCountries := [] }

/-- Modelled from the spec: the `share` formula as the spec's normalization rules
describe it, applied to the raw upstream values of a single record (the record's
own `worldEmissions.co2` as denominator).  Used to compare the code's `share`
against the specified formula. -/
def rawShareSpec (d : RawCountryRecord) : ℚ :=
  if 0 < orZero (gasOf d.worldEmissions).co2 then
    toFixed2 (orZero (gasOf d.emissions).co2 / orZero (gasOf d.worldEmissions).co2 * 100)
  else 0

/-! ### Sector / industry aggregation -/

/-- One element of a country's array in the `/assets/emissions` response. -/
structure AssetRecord where
  Sector : Option String
  Gas : Option String
  Emissions : Option ℚ
deriving Repr, DecidableEq

/-- The `/assets/emissions` response: a JSON object mapping a country code to an
array of asset records; `none` models a value that is not an array (skipped by
the `Array.isArray` check). -/
def AssetsData := List (String × Option (List AssetRecord))

/-- JavaScript `toLowerCase()` modelled character-wise (the strings that reach
it — upstream sector slugs and the fixed industry names — are ASCII). -/
def asciiLower (s : String) : String := String.mk (s.data.map Char.toLower)

/-- The JavaScript regular expression class `\w`: ASCII letters, digits, `_`. -/
def isWordChar (c : Char) : Bool := c.isAlphanum || c = '_'

/-- The `.replace(/\b\w/g, l => l.toUpperCase())` pass: uppercase every word
character that starts a word.  The boolean argument records whether the previous
character was a word character. -/
def titleCaseChars : Bool → List Char → List Char
  | _, [] => []
  | prevWord, c :: cs =>
      (if isWordChar c && !prevWord then c.toUpper else c) :: titleCaseChars (isWordChar c) cs

/-- The dash-to-space replacement pass followed by title casing. -/
def titleCaseSlug (s : String) : String :=
  String.mk (titleCaseChars false ((s.data).map (fun c => if c = '-' then ' ' else c)))

/-- The static slug→label table of `normalizeSectorName`. -/
def sectorNameMap : List (String × String) :=
  [("power", "Power Generation"),
   ("electricity-generation", "Power Generation"),
   ("transportation", "Transportation"),
   ("road-transportation", "Road Transport"),
   ("domestic-aviation", "Aviation"),
   ("international-aviation", "International Aviation"),
   ("international-shipping", "Shipping"),
   ("manufacturing", "Manufacturing"),
   ("steel", "Steel Production"),
   ("cement", "Cement Production"),
   ("chemicals", "Chemicals"),
   ("petrochemical-steam-cracking", "Petrochemicals"),
   ("buildings", "Buildings"),
   ("residential-and-commercial-onsite-fuel-usage", "Buildings"),
   ("agriculture", "Agriculture"),
   ("enteric-fermentation-cattle-pasture", "Livestock"),
   ("rice-cultivation", "Rice Cultivation"),
   ("fossil-fuel-operations", "Fossil Fuel Operations"),
   ("oil-and-gas-production-and-transport", "Oil & Gas"),
   ("oil-and-gas-refining", "Oil Refining"),
   ("coal-mining", "Coal Mining"),
   ("waste", "Waste"),
   ("solid-waste-disposal", "Solid Waste"),
   ("forestry-and-land-use", "Land Use"),
   ("forest-land-clearing", "Deforestation"),
   ("mineral-extraction", "Mining")]

/-- `normalizeSectorName(sector)`: table lookup on the lowercased slug, falling
back to the title-cased slug, falling back to `"Other"`. -/
def normalizeSectorName (sector : Option String) : String :=
  match sector with
  | none => "Other"
  | some sec =>
    match sectorNameMap.lookup (asciiLower sec) with
    | some n => n
    | none =>
      let t := titleCaseSlug sec
      if t = "" then "Other" else t

/-- The static sector-colour table of `getSectorColor`. -/
def sectorColorMap : List (String × String) :=
  [("Power Generation", "#f59e0b"),
   ("Transportation", "#06b6d4"),
   ("Road Transport", "#06b6d4"),
   ("Aviation", "#0891b2"),
   ("Shipping", "#0e7490"),
   ("Manufacturing", "#8b5cf6"),
   ("Steel Production", "#7c3aed"),
   ("Cement Production", "#6d28d9"),
   ("Chemicals", "#5b21b6"),
   ("Buildings", "#ec4899"),
   ("Agriculture", "#22c55e"),
   ("Livestock", "#16a34a"),
   ("Fossil Fuel Operations", "#64748b"),
   ("Oil & Gas", "#475569"),
   ("Coal Mining", "#334155"),
   ("Waste", "#a855f7"),
   ("Land Use", "#84cc16"),
   ("Deforestation", "#65a30d"),
   ("Mining", "#78716c")]

/-- `getSectorColor(sector)`. -/
def getSectorColor (sector : String) : String :=
  (sectorColorMap.lookup sector).getD "#6b7280"

/-- The running per-sector accumulator `{ co2: 0, co2e, count }` (the `co2` field
is initialized but never updated in the source, so it is omitted here). -/
structure SectorAccum where
  co2e : ℚ
  count : ℕ
deriving Repr, DecidableEq

/-- Adds one asset record's emissions to `sectorMap[sector]`, creating the entry
when absent (insertion order preserved, as for a JavaScript object). -/
def addToSector (m : List (String × SectorAccum)) (sector : String) (v : ℚ) :
    List (String × SectorAccum) :=
  match m with
  | [] => [(sector, { co2e := v, count := 1 })]
  | (k, a) :: rest =>
    if k = sector then (k, { co2e := a.co2e + v, count := a.count + 1 }) :: rest
    else (k, a) :: addToSector rest sector v

/-- The inner loop body of `processSectorEmissions`: only `co2e_100yr` gas rows
are accumulated, keyed by normalized sector name. -/
def sectorRowStep (m : List (String × SectorAccum)) (e : AssetRecord) :
    List (String × SectorAccum) :=
  if e.Gas ≠ some "co2e_100yr" then m
  else addToSector m (normalizeSectorName e.Sector) (orZero e.Emissions)

/-- The outer loop body of `processSectorEmissions`: one country's rows (skipped
entirely when the value is not an array). -/
def sectorCountryStep (m : List (String × SectorAccum))
    (ce : String × Option (List AssetRecord)) : List (String × SectorAccum) :=
  match ce.2 with
  | none => m
  | some ems => ems.foldl sectorRowStep m

/-- The `sectorMap` built by the double loop of `processSectorEmissions`. -/
def buildSectorMap (data : AssetsData) : List (String × SectorAccum) :=
  data.foldl sectorCountryStep []

/-- One sector record of `getSectorEmissions`. -/
structure SectorRecord where
  name : String
  emissions : ℤ
  percentage : ℚ
  color : String
deriving Repr, DecidableEq

/-- One industry aggregate of `getSectorEmissions`.  In the source the
`percentage` field is the string produced by `.toFixed(1)`; it is modelled here
by the numeric value of that string. -/
structure Industry where
  id : String
  name : String
  totalEmissions : ℤ
  percentage : ℚ
  color : String
  sectors : List SectorRecord
deriving Repr, DecidableEq

/-- Response shape of `getSectorEmissions`; the error path returns an object
without the `total` field, hence the `Option`. -/
structure SectorResponse where
  sectors : List SectorRecord
  industries : List Industry
  total : Option ℤ
deriving Repr, DecidableEq

/-- The static industry grouping table of `groupSectorsToIndustries`. -/
def industryGroups : List (String × List String) :=
  [("Energy", ["Power Generation", "Fossil Fuel Operations", "Oil & Gas", "Coal Mining",
               "Oil Refining"]),
   ("Transportation", ["Transportation", "Road Transport", "Aviation", "International Aviation",
                       "Shipping"]),
   ("Manufacturing", ["Manufacturing", "Steel Production", "Cement Production", "Chemicals",
                      "Petrochemicals"]),
   ("Buildings", ["Buildings"]),
   ("Agriculture", ["Agriculture", "Livestock", "Rice Cultivation"]),
   ("Waste & Land Use", ["Waste", "Solid Waste", "Land Use", "Deforestation"])]

/-- The static industry-colour table of `groupSectorsToIndustries`. -/
def industryColorMap : List (String × String) :=
  [("Energy", "#f59e0b"),
   ("Transportation", "#06b6d4"),
   ("Manufacturing", "#8b5cf6"),
   ("Buildings", "#ec4899"),
   ("Agriculture", "#22c55e"),
   ("Waste & Land Use", "#a855f7")]

/-- `industry.toLowerCase().replace(/\s+/g, '-')`: lowercase and turn each run of
whitespace into a single dash. -/
def slugifyIndustry (s : String) : String :=
  String.mk (((asciiLower s).data.foldl (fun acc c =>
    if c.isWhitespace then (if acc.2 then acc else (acc.1 ++ ['-'], true))
    else (acc.1 ++ [c], false)) (([] : List Char), false)).1)

/-- `groupSectorsToIndustries(sectors)`. -/
def groupSectorsToIndustries (sectors : List SectorRecord) : List Industry :=
  let industries := industryGroups.foldl (fun acc g =>
    let industrySectors := sectors.filter (fun s => g.2.contains s.name)
    let totalEmissions := (industrySectors.map (·.emissions)).sum
    if 0 < totalEmissions then
      acc ++ [{ id := slugifyIndustry g.1
                name := g.1
                totalEmissions := totalEmissions
                percentage := toFixed1 ((industrySectors.map (·.percentage)).sum)
                color := (industryColorMap.lookup g.1).getD "#6b7280"
                sectors := industrySectors }]
    else acc) []
  sortDescBy (fun i => (i.totalEmissions : ℚ)) industries

/-- `processSectorEmissions(data)`. -/
def processSectorEmissions (data : AssetsData) : SectorResponse :=
  let sectorMap := buildSectorMap data
  let total := (sectorMap.map (fun kv => kv.2.co2e)).sum
  let sectors := sortDescBy (fun s => (s.emissions : ℚ))
    ((sectorMap.map (fun kv =>
      ({ name := kv.1
         emissions := jsRound (kv.2.co2e / 1000000)
         percentage := if 0 < total then toFixed1 (kv.2.co2e / total * 100) else 0
         color := getSectorColor kv.1 } : SectorRecord))).filter (fun s => 0 < s.emissions))
  { sectors := sectors
    industries := groupSectorsToIndustries sectors
    total := some (jsRound (total / 1000000)) }

/-! ### Regional aggregation -/

/-- One element of the `/definitions/countries` response. -/
structure RawCountryDef where
  alpha3 : Option String
  name : Option String
  continent : Option String
deriving Repr, DecidableEq

/-- The `regionColors` table of `getRegionalEmissions`. -/
def regionColors : List (String × String) :=
  [("Asia", "#f59e0b"),
   ("North America", "#06b6d4"),
   ("Europe", "#8b5cf6"),
   ("Africa", "#22c55e"),
   ("South America", "#14b8a6"),
   ("Oceania", "#ec4899"),
   ("Antarctica", "#64748b")]

/-- The `countryToContinent` map: one entry per definition with truthy `alpha3`
and truthy `continent` (later entries overwrite earlier ones, as a JavaScript
object assignment does). -/
def upsert (m : List (String × α)) (k : String) (v : α) : List (String × α) :=
  match m with
  | [] => [(k, v)]
  | (k', v') :: rest => if k' = k then (k, v) :: rest else (k', v') :: upsert rest k v

/-- Builds `countryToContinent` from the country definitions. -/
def buildCountryToContinent (defs : List RawCountryDef) : List (String × String) :=
  defs.foldl (fun m c =>
    if truthyStr c.alpha3 && truthyStr c.continent then
      upsert m (c.alpha3.getD "") (c.continent.getD "")
    else m) []

/-- The per-continent accumulator object created inside `getRegionalEmissions`. -/
structure RegionAccum where
  name : String
  emissions : ℤ
  color : String
  countryList : List CountryEmission
deriving Repr, DecidableEq

/-- Adds one country to `regionData[continent]`, creating the group when absent. -/
def addCountryToRegion (rd : List (String × RegionAccum)) (continent : String)
    (c : CountryEmission) : List (String × RegionAccum) :=
  match rd with
  | [] => [(continent, { name := continent
                         emissions := c.emissions.co2
                         color := (regionColors.lookup continent).getD "#6b7280"
                         countryList := [c] })]
  | (k, r) :: rest =>
    if k = continent then
      (k, { r with emissions := r.emissions + c.emissions.co2
                   countryList := r.countryList ++ [c] }) :: rest
    else (k, r) :: addCountryToRegion rest continent c

/-- One iteration of the grouping loop of `getRegionalEmissions`: skip a country
whose continent is unresolved (falsy lookup), otherwise add it to its region and
to `totalAssigned`. -/
def regionStep (ctc : List (String × String)) (acc : List (String × RegionAccum) × ℤ)
    (country : CountryEmission) : List (String × RegionAccum) × ℤ :=
  match ctc.lookup country.country with
  | none => acc
  | some continent =>
    if continent = "" then acc
    else (addCountryToRegion acc.1 continent country, acc.2 + country.emissions.co2)

/-- The grouping loop of `getRegionalEmissions`: the region groups and the
`totalAssigned` sum. -/
def buildRegionData (ctc : List (String × String)) (countries : List CountryEmission) :
    List (String × RegionAccum) × ℤ :=
  countries.foldl (regionStep ctc) ([], 0)

/-- One entry of a region's `countryBreakdown`. -/
structure RegionBreakdownEntry where
  name : String
  code : String
  emissions : ℤ
  percentage : ℚ
deriving Repr, DecidableEq

/-- One region aggregate of `getRegionalEmissions`.  The source emits both a
`countryCount` and a duplicate `countries` count field. -/
structure Region where
  name : String
  emissions : ℤ
  color : String
  countryCount : ℕ
  percentage : ℚ
  countries : ℕ
  topCountries : List String
  countryBreakdown : List RegionBreakdownEntry
deriving Repr, DecidableEq

/-- Response shape of `getRegionalEmissions`. -/
structure RegionalResponse where
  regions : List Region
  topCountries : List CountryEmission
deriving Repr, DecidableEq

/-- JavaScript `c.name || c.country`. -/
def nameOrCode (c : CountryEmission) : String :=
  if c.name = "" then c.country else c.name

/-- The region-shaping `.map` of `getRegionalEmissions` (`Math.round(r.emissions)`
is the identity here because the accumulated emissions are integers). -/
def mkRegion (totalAssigned : ℤ) (r : RegionAccum) : Region :=
  let sortedCountries := sortDescBy (fun c => (c.emissions.co2 : ℚ)) r.countryList
  let regionTotal := r.emissions
  { name := r.name
    emissions := r.emissions
    color := r.color
    countryCount := r.countryList.length
    percentage :=
      if 0 < totalAssigned then toFixed1 ((r.emissions : ℚ) / (totalAssigned : ℚ) * 100)
      else 0
    countries := r.countryList.length
    topCountries := (sortedCountries.take 3).map nameOrCode
    countryBreakdown := (sortedCountries.take 10).map (fun c =>
      { name := nameOrCode c
        code := c.country
        emissions := c.emissions.co2
        percentage :=
          if 0 < regionTotal then toFixed1 ((c.emissions.co2 : ℚ) / (regionTotal : ℚ) * 100)
          else 0 }) }

/-- The pure body of `getRegionalEmissions` after its two fetches: builds the
continent map, groups the country records, shapes and sorts the regions. -/
def processRegions (countryDefs : List RawCountryDef) (countries : List CountryEmission) :
    RegionalResponse :=
  let ctc := buildCountryToContinent countryDefs
  let rdTotal := buildRegionData ctc countries
  let regions := sortDescBy (fun r => (r.emissions : ℚ))
    (((rdTotal.1.map Prod.snd).filter (fun r => r.name ≠ "")).map (mkRegion rdTotal.2))
  { regions := regions
    topCountries := countries.take 20 }

/-! ### Industry breakdown for trends -/

/-- The six-industry share table computed by `getRealIndustryBreakdown`.  The
source names the last field `'Waste & Land Use'`. -/
structure IndustryBreakdown where
  Energy : ℚ
  Manufacturing : ℚ
  Transportation : ℚ
  Buildings : ℚ
  Agriculture : ℚ
  WasteAndLandUse : ℚ
deriving Repr, DecidableEq

/-- The static sector-slug→industry table of `getRealIndustryBreakdown`. -/
def sectorToIndustry : List (String × String) :=
  [("power", "Energy"),
   ("electricity-generation", "Energy"),
   ("fossil-fuel-operations", "Energy"),
   ("oil-and-gas-production-and-transport", "Energy"),
   ("oil-and-gas-refining", "Energy"),
   ("coal-mining", "Energy"),
   ("other-energy-use", "Energy"),
   ("manufacturing", "Manufacturing"),
   ("steel", "Manufacturing"),
   ("cement", "Manufacturing"),
   ("chemicals", "Manufacturing"),
   ("petrochemical-steam-cracking", "Manufacturing"),
   ("aluminum", "Manufacturing"),
   ("pulp-and-paper", "Manufacturing"),
   ("other-manufacturing", "Manufacturing"),
   ("transportation", "Transportation"),
   ("road-transportation", "Transportation"),
   ("domestic-aviation", "Transportation"),
   ("international-aviation", "Transportation"),
   ("international-shipping", "Transportation"),
   ("domestic-shipping", "Transportation"),
   ("railways", "Transportation"),
   ("other-transport", "Transportation"),
   ("buildings", "Buildings"),
   ("residential-and-commercial-onsite-fuel-usage", "Buildings"),
   ("agriculture", "Agriculture"),
   ("enteric-fermentation-cattle-pasture", "Agriculture"),
   ("enteric-fermentation-cattle-feedlot", "Agriculture"),
   ("rice-cultivation", "Agriculture"),
   ("cropland-fires", "Agriculture"),
   ("synthetic-fertilizer-application", "Agriculture"),
   ("manure-management-cattle-feedlot", "Agriculture"),
   ("manure-left-on-pasture-cattle", "Agriculture"),
   ("other-agricultural-soil-emissions", "Agriculture"),
   ("waste", "Waste & Land Use"),
   ("solid-waste-disposal", "Waste & Land Use"),
   ("wastewater-treatment-and-discharge", "Waste & Land Use"),
   ("forestry-and-land-use", "Waste & Land Use"),
   ("forest-land-clearing", "Waste & Land Use"),
   ("forest-land-degradation", "Waste & Land Use"),
   ("shrubgrass-fires", "Waste & Land Use"),
   ("wetland-fires", "Waste & Land Use"),
   ("removals", "Waste & Land Use")]

/-- `industryTotals[industry] += v` for the six fixed industry keys. -/
def addIndustryTotal (t : IndustryBreakdown) (industry : String) (v : ℚ) : IndustryBreakdown :=
  if industry = "Energy" then { t with Energy := t.Energy + v }
  else if industry = "Manufacturing" then { t with Manufacturing := t.Manufacturing + v }
  else if industry = "Transportation" then { t with Transportation := t.Transportation + v }
  else if industry = "Buildings" then { t with Buildings := t.Buildings + v }
  else if industry = "Agriculture" then { t with Agriculture := t.Agriculture + v }
  else if industry = "Waste & Land Use" then { t with WasteAndLandUse := t.WasteAndLandUse + v }
  else t

/-- Applies `f` to every industry share. -/
def mapBreakdown (f : ℚ → ℚ) (b : IndustryBreakdown) : IndustryBreakdown :=
  { Energy := f b.Energy
    Manufacturing := f b.Manufacturing
    Transportation := f b.Transportation
    Buildings := f b.Buildings
    Agriculture := f b.Agriculture
    WasteAndLandUse := f b.WasteAndLandUse }

/-- `Object.values(breakdown).reduce((a, b) => a + b, 0)`. -/
def breakdownSum (b : IndustryBreakdown) : ℚ :=
  b.Energy + b.Manufacturing + b.Transportation + b.Buildings + b.Agriculture + b.WasteAndLandUse

/-- The accumulation loop of `getRealIndustryBreakdown`: per-industry totals and
the overall total over mapped `co2e_100yr` rows. -/
def industryTotalsOf (data : AssetsData) : IndustryBreakdown × ℚ :=
  data.foldl (fun acc ce =>
    match ce.2 with
    | none => acc
    | some ems => ems.foldl (fun acc e =>
        if e.Gas ≠ some "co2e_100yr" then acc
        else
          match e.Sector with
          | none => acc
          | some sec =>
            match sectorToIndustry.lookup (asciiLower sec) with
            | some industry =>
              (addIndustryTotal acc.1 industry (orZero e.Emissions), acc.2 + orZero e.Emissions)
            | none => acc) acc)
    (⟨0, 0, 0, 0, 0, 0⟩, 0)

/-- The share computation of `getRealIndustryBreakdown`: divide each industry
total by the overall total (4 decimals), then renormalize by the share sum. -/
def computeIndustryBreakdown (data : AssetsData) : IndustryBreakdown :=
  let t := industryTotalsOf data
  let breakdown := mapBreakdown (fun v => if 0 < t.2 then toFixed4 (v / t.2) else 0) t.1
  let s := breakdownSum breakdown
  if 0 < s then mapBreakdown (fun v => toFixed4 (v / s)) breakdown else breakdown

/-- The hardcoded share table returned when the breakdown fetch fails. -/
def fallbackBreakdown : IndustryBreakdown :=
  { Energy := 35/100
    Manufacturing := 21/100
    Transportation := 16/100
    Buildings := 10/100
    Agriculture := 11/100
    WasteAndLandUse := 7/100 }

/-! ### Cache state and the upstream collaborator

Each exported fetch function is modelled as a state transformer over the
module-level `cache` object; `Date.now()` is the `now` argument and
`new Date().toISOString()` the `nowIso` argument.  The upstream HTTP API is an
oracle: `none` models a network error or a non-2xx status (both are handled by
the same catch/`response.ok` logic), `some` a parsed 200 body.  The `calls`
counter counts upstream requests (the spec's call-count stub). -/

/-- A sector definition; the service never inspects its contents, so it is kept
as a raw value. -/
structure SectorDef where
  raw : String
deriving Repr, DecidableEq

/-- The upstream Climate TRACE API as a deterministic oracle.  Emissions queries
are keyed by `since`, `to` and the optional `countries` CSV parameter. -/
structure Upstream where
  definitionsCountries : Option (List RawCountryDef)
  definitionsSectors : Option (List SectorDef)
  countryEmissions : ℤ → ℤ → Option String → Option (List RawCountryRecord)
  assetsEmissions : ℤ → ℤ → Option String → Option AssetsData

/-- The module-level `cache` object plus the country-name cache and the
upstream call counter. -/
structure St where
  countries : Option (List RawCountryDef)
  sectors : Option (List SectorDef)
  emissionsCache : List (String × CountryEmissionsResponse)
  topEmittersCache : List (String × List String)
  industryBreakdownCache : List (String × IndustryBreakdown)
  lastFetch : List (String × ℤ)
  countryNameCache : List (String × String)
  countryNameCacheLoaded : Bool
  calls : ℕ
deriving Repr, DecidableEq

/-- The fresh cache at process start. -/
def St.init : St :=
  { countries := none
    sectors := none
    emissionsCache := []
    topEmittersCache := []
    industryBreakdownCache := []
    lastFetch := []
    countryNameCache := []
    countryNameCacheLoaded := false
    calls := 0 }

/-- `CACHE_DURATION = 1000 * 60 * 30` (milliseconds). -/
def CACHE_DURATION : ℤ := 1000 * 60 * 30

/-- `Date.now() - cache.lastFetch[key] < CACHE_DURATION`; a missing timestamp
compares as `NaN` in JavaScript, which is falsy. -/
def cacheValid (lastFetch : List (String × ℤ)) (key : String) (now : ℤ) : Bool :=
  match lastFetch.lookup key with
  | some t => decide (now - t < CACHE_DURATION)
  | none => false

/-- The fetch path of `getCountryDefinitions` (cache miss or expired). -/
def countryDefsFetch (up : Upstream) (now : ℤ) (s : St) : List RawCountryDef × St :=
  let s1 := { s with calls := s.calls + 1 }
  match up.definitionsCountries with
  | some data =>
    (data, { s1 with countries := some data, lastFetch := upsert s1.lastFetch "countries" now })
  | none => ([], s1)

/-- `getCountryDefinitions()`. -/
def getCountryDefinitionsS (up : Upstream) (now : ℤ) (s : St) : List RawCountryDef × St :=
  match s.countries with
  | some cs =>
    if cacheValid s.lastFetch "countries" now then (cs, s)
    else countryDefsFetch up now s
  | none => countryDefsFetch up now s

/-- The fetch path of `getSectorDefinitions` (cache miss or expired). -/
def sectorDefsFetch (up : Upstream) (now : ℤ) (s : St) : List SectorDef × St :=
  let s1 := { s with calls := s.calls + 1 }
  match up.definitionsSectors with
  | some data =>
    (data, { s1 with sectors := some data, lastFetch := upsert s1.lastFetch "sectors" now })
  | none => ([], s1)

/-- `getSectorDefinitions()`. -/
def getSectorDefinitionsS (up : Upstream) (now : ℤ) (s : St) : List SectorDef × St :=
  match s.sectors with
  | some cs =>
    if cacheValid s.lastFetch "sectors" now then (cs, s)
    else sectorDefsFetch up now s
  | none => sectorDefsFetch up now s

/-- `initializeCountryNames()`: populates the name cache once; because
`getCountryDefinitions` never throws, the loaded flag is always set. -/
def initCountryNamesS (up : Upstream) (now : ℤ) (s : St) : St :=
  if s.countryNameCacheLoaded then s
  else
    let cs := getCountryDefinitionsS up now s
    let names := cs.1.foldl (fun m c =>
      if truthyStr c.alpha3 && truthyStr c.name then
        upsert m (c.alpha3.getD "") (c.name.getD "")
      else m) cs.2.countryNameCache
    { cs.2 with countryNameCache := names, countryNameCacheLoaded := true }

/-- Cache key `topEmitters_${since}_${to}_${limit}`. -/
def topEmittersCacheKey (since toYear : ℤ) (limit : ℕ) : String :=
  "topEmitters_" ++ toString since ++ "_" ++ toString toYear ++ "_" ++ toString limit

/-- Cache key `emissions_${since}_${to}_${countries || 'top'}_${limit}`. -/
def emissionsCacheKey (since toYear : ℤ) (countries : Option String) (limit : ℕ) : String :=
  "emissions_" ++ toString since ++ "_" ++ toString toYear ++ "_" ++
    (match countries with
     | some c => if c = "" then "top" else c
     | none => "top") ++ "_" ++ toString limit

/-- Cache key `industryBreakdown_${since}_${to}`. -/
def industryBreakdownCacheKey (since toYear : ℤ) : String :=
  "industryBreakdown_" ++ toString since ++ "_" ++ toString toYear

/-- The hardcoded fallback list of high-emitting country codes. -/
def fallbackEmitters : List String :=
  ["CHN", "USA", "IND", "RUS", "JPN", "DEU", "IRN", "SAU", "IDN", "KOR",
   "CAN", "BRA", "ZAF", "MEX", "AUS", "GBR", "TUR", "POL", "ITA", "FRA",
   "THA", "VNM", "EGY", "MYS", "ARG", "PAK", "NGA", "ARE", "NLD", "PHL",
   "COL", "KAZ", "DZA", "IRQ", "CHL", "CZE", "ROU", "BGD", "UKR", "BEL"]

/-- Splits a list into consecutive chunks of `n` elements (the batching loop
`for (let i = 0; i < allCodes.length; i += batchSize)`). -/
def chunksOf (n : ℕ) (l : List α) : List (List α) :=
  if h : 0 < n ∧ l.length ≠ 0 then
    l.take n :: chunksOf n (l.drop n)
  else []
termination_by l.length
decreasing_by
  simp only [List.length_drop]
  obtain ⟨h1, h2⟩ := h
  omega

/-- One iteration of the batch loop of `getTopEmittingCountryCodes`: fetch a
batch of country codes, keep the filtered rows on success, skip on failure. -/
def batchStep (up : Upstream) (since toYear : ℤ)
    (acc : List RawCountryRecord × St) (batch : List String) : List RawCountryRecord × St :=
  let st := { acc.2 with calls := acc.2.calls + 1 }
  match up.countryEmissions since toYear (some (String.intercalate "," batch)) with
  | some data => (acc.1 ++ data.filter countryFilter, st)
  | none => (acc.1, st)

/-- The try-block of `getTopEmittingCountryCodes` (cache miss path): batch the
registry codes, fetch each batch, rank by raw CO2, fall back on failure. -/
def topEmittersCompute (up : Upstream) (now since toYear : ℤ) (limit : ℕ) (s : St) :
    List String × St :=
  let cs := getCountryDefinitionsS up now s
  if cs.1.isEmpty then (fallbackEmitters.take limit, cs.2)
  else
    let allCodes := (cs.1.filter (fun c =>
      match c.alpha3 with
      | some a => a.length == 3
      | none => false)).map (fun c => c.alpha3.getD "")
    let batches := chunksOf 50 allCodes
    let fetched := batches.foldl (batchStep up since toYear) ([], cs.2)
    if fetched.1.isEmpty then (fallbackEmitters.take limit, fetched.2)
    else
      let key := topEmittersCacheKey since toYear limit
      let topEmitters := ((sortDescBy (fun d => orZero (gasOf d.emissions).co2)
        (fetched.1.filter (fun d =>
          match d.country with
          | some c => c.length == 3
          | none => false))).take limit).map (fun d => d.country.getD "")
      (topEmitters, { fetched.2 with
        topEmittersCache := upsert fetched.2.topEmittersCache key topEmitters
        lastFetch := upsert fetched.2.lastFetch key now })

/-- `getTopEmittingCountryCodes(since, to, limit)`. -/
def getTopEmittingCountryCodesS (up : Upstream) (now since toYear : ℤ) (limit : ℕ) (s : St) :
    List String × St :=
  let key := topEmittersCacheKey since toYear limit
  match s.topEmittersCache.lookup key with
  | some cached =>
    if cacheValid s.lastFetch key now then (cached, s)
    else topEmittersCompute up now since toYear limit s
  | none => topEmittersCompute up now since toYear limit s

/-- Option bag of `getCountryEmissions`; the source names the second field `to`. -/
structure CountryEmissionsOptions where
  since : ℤ := 2023
  toYear : ℤ := 2023
  countries : Option String := none
  limit : ℕ := 50
deriving Repr, DecidableEq

/-- The `countries` query parameter resolved through the top-emitter path when
the option is falsy; `none` when even the top-emitter list is empty. -/
def topEmittersParam (up : Upstream) (now : ℤ) (opts : CountryEmissionsOptions) (s : St) :
    Option String × St :=
  let r := getTopEmittingCountryCodesS up now opts.since opts.toYear opts.limit s
  (if r.1.isEmpty then none else some (String.intercalate "," r.1), r.2)

/-- URL building of `getCountryEmissions`: `if (countries) ... else` top emitters. -/
def resolveCountriesParam (up : Upstream) (now : ℤ) (opts : CountryEmissionsOptions) (s : St) :
    Option String × St :=
  match opts.countries with
  | some c =>
    if c ≠ "" then (some c, s)
    else topEmittersParam up now opts s
  | none => topEmittersParam up now opts s

/-- The try-block of `getCountryEmissions` (cache miss path). -/
def countryEmissionsFetch (up : Upstream) (now : ℤ) (nowIso : String)
    (opts : CountryEmissionsOptions) (s : St) : CountryEmissionsResponse × St :=
  let pr := resolveCountriesParam up now opts s
  let s1 := { pr.2 with calls := pr.2.calls + 1 }
  match up.countryEmissions opts.since opts.toYear pr.1 with
  | some data =>
    let processed :=
      processCountryEmissions s1.countryNameCache nowIso data opts.since opts.toYear
    let key := emissionsCacheKey opts.since opts.toYear opts.countries opts.limit
    (processed, { s1 with emissionsCache := upsert s1.emissionsCache key processed
                          lastFetch := upsert s1.lastFetch key now })
  | none => (getEmptyResponse nowIso opts.since opts.toYear, s1)

/-- `getCountryEmissions(options)`. -/
def getCountryEmissionsS (up : Upstream) (now : ℤ) (nowIso : String)
    (opts : CountryEmissionsOptions) (s : St) : CountryEmissionsResponse × St :=
  let s0 := initCountryNamesS up now s
  let key := emissionsCacheKey opts.since opts.toYear opts.countries opts.limit
  match s0.emissionsCache.lookup key with
  | some cached =>
    if cacheValid s0.lastFetch key now then (cached, s0)
    else countryEmissionsFetch up now nowIso opts s0
  | none => countryEmissionsFetch up now nowIso opts s0

/-- Option bag of `getSectorEmissions`. -/
structure SectorOptions where
  since : ℤ := 2023
  toYear : ℤ := 2023
  countries : Option String := none
deriving Repr, DecidableEq

/-- `getSectorEmissions(options)`: note that it has no cache lookup — every call
issues an upstream request. -/
def getSectorEmissionsS (up : Upstream) (opts : SectorOptions) (s : St) :
    SectorResponse × St :=
  let param :=
    match opts.countries with
    | some c => if c ≠ "" then some c else none
    | none => none
  let s1 := { s with calls := s.calls + 1 }
  match up.assetsEmissions opts.since opts.toYear param with
  | some data => (processSectorEmissions data, s1)
  | none => ({ sectors := [], industries := [], total := none }, s1)

/-- The fetch path of `getRealIndustryBreakdown` (cache miss). -/
def industryBreakdownFetch (up : Upstream) (now since toYear : ℤ) (s : St) :
    IndustryBreakdown × St :=
  let s1 := { s with calls := s.calls + 1 }
  match up.assetsEmissions since toYear none with
  | some data =>
    let breakdown := computeIndustryBreakdown data
    let key := industryBreakdownCacheKey since toYear
    (breakdown, { s1 with
      industryBreakdownCache := upsert s1.industryBreakdownCache key breakdown
      lastFetch := upsert s1.lastFetch key now })
  | none => (fallbackBreakdown, s1)

/-- `getRealIndustryBreakdown(since, to)`. -/
def getRealIndustryBreakdownS (up : Upstream) (now since toYear : ℤ) (s : St) :
    IndustryBreakdown × St :=
  let key := industryBreakdownCacheKey since toYear
  match s.industryBreakdownCache.lookup key with
  | some b =>
    if cacheValid s.lastFetch key now then (b, s)
    else industryBreakdownFetch up now since toYear s
  | none => industryBreakdownFetch up now since toYear s

/-- Option bag of `getEmissionsTrends`. -/
structure TrendsOptions where
  startYear : ℤ := 2019
  endYear : ℤ := 2023
  countries : Option String := none
deriving Repr, DecidableEq

/-- One entry of a trend point's `countries` array (no filtering is applied). -/
structure TrendCountry where
  code : Option String
  name : Option String
  co2 : ℤ
deriving Repr, DecidableEq

/-- One per-year trend entry. -/
structure TrendPoint where
  year : ℤ
  total : ℤ
  Energy : ℤ
  Manufacturing : ℤ
  Transportation : ℤ
  Buildings : ℤ
  Agriculture : ℤ
  WasteAndLandUse : ℤ
  countries : List TrendCountry
deriving Repr, DecidableEq

/-- The inclusive year range `for (let year = startYear; year <= endYear; year++)`. -/
def yearsRange (startYear endYear : ℤ) : List ℤ :=
  (List.range (endYear + 1 - startYear).toNat).map (fun i => startYear + (i : ℤ))

/-- Builds one trend entry from a year's emissions response. -/
def mkTrendPoint (nameCache : List (String × String)) (bd : IndustryBreakdown)
    (year : ℤ) (data : List RawCountryRecord) : TrendPoint :=
  let worldTotal := orZero ((data.head?.bind (·.worldEmissions)).getD RawGasValues.empty).co2
  let totalMt := jsRound (worldTotal / 1000000)
  { year := year
    total := totalMt
    Energy := jsRound ((totalMt : ℚ) * bd.Energy)
    Manufacturing := jsRound ((totalMt : ℚ) * bd.Manufacturing)
    Transportation := jsRound ((totalMt : ℚ) * bd.Transportation)
    Buildings := jsRound ((totalMt : ℚ) * bd.Buildings)
    Agriculture := jsRound ((totalMt : ℚ) * bd.Agriculture)
    WasteAndLandUse := jsRound ((totalMt : ℚ) * bd.WasteAndLandUse)
    countries := data.map (fun d =>
      { code := d.country
        name := d.country.map (getCountryName nameCache)
        co2 := jsRound (orZero (gasOf d.emissions).co2 / 1000000) }) }

/-- One iteration of the per-year loop of `getEmissionsTrends`: fetch the year,
append a trend entry on success, skip the year on failure. -/
def trendStep (up : Upstream) (bd : IndustryBreakdown) (cl : String)
    (acc : List TrendPoint × St) (year : ℤ) : List TrendPoint × St :=
  let st := { acc.2 with calls := acc.2.calls + 1 }
  match up.countryEmissions year year (some cl) with
  | some data => (acc.1 ++ [mkTrendPoint st.countryNameCache bd year data], st)
  | none => (acc.1, st)

/-- `getEmissionsTrends(options)`: one breakdown per window, one fetch per year,
failed years skipped. -/
def getEmissionsTrendsS (up : Upstream) (now : ℤ) (opts : TrendsOptions) (s : St) :
    List TrendPoint × St :=
  let s0 := initCountryNamesS up now s
  let bd := getRealIndustryBreakdownS up now opts.startYear opts.endYear s0
  let cl : String × St :=
    match opts.countries with
    | some c =>
      if c ≠ "" then (c, bd.2)
      else
        let r := getTopEmittingCountryCodesS up now opts.startYear opts.endYear 5 bd.2
        (String.intercalate "," r.1, r.2)
    | none =>
      let r := getTopEmittingCountryCodesS up now opts.startYear opts.endYear 5 bd.2
      (String.intercalate "," r.1, r.2)
  (yearsRange opts.startYear opts.endYear).foldl (trendStep up bd.1 cl.1) ([], cl.2)

/-- Option bag of `getRegionalEmissions`. -/
structure RegionalOptions where
  since : ℤ := 2023
  toYear : ℤ := 2023
deriving Repr, DecidableEq

/-- `getRegionalEmissions(options)`. -/
def getRegionalEmissionsS (up : Upstream) (now : ℤ) (nowIso : String)
    (opts : RegionalOptions) (s : St) : RegionalResponse × St :=
  let s0 := initCountryNamesS up now s
  let cd := getCountryDefinitionsS up now s0
  let em := getCountryEmissionsS up now nowIso
    { since := opts.since, toYear := opts.toYear, countries := none, limit := 100 } cd.2
  (processRegions cd.1 em.1.countries, em.2)

/-- Option bag of `getAllGasesEmissions`. -/
structure AllGasesOptions where
  since : ℤ := 2023
  toYear : ℤ := 2023
  limit : ℕ := 30
deriving Repr, DecidableEq

/-- One formatted gas value `{value, unit, name}`. -/
structure GasDetail where
  value : ℤ
  unit : String
  name : String
deriving Repr, DecidableEq

/-- The five formatted gas entries of `getAllGasesEmissions`. -/
structure GasValuesDetail where
  co2 : GasDetail
  ch4 : GasDetail
  n2o : GasDetail
  co2e_100yr : GasDetail
  co2e_20yr : GasDetail
deriving Repr, DecidableEq

/-- One country record of `getAllGasesEmissions`. -/
structure AllGasesCountry where
  country : String
  name : String
  rank : Option ℤ
  gases : GasValuesDetail
deriving Repr, DecidableEq

/-- Response of `getAllGasesEmissions`; the error path returns an object with
only `countries` and an empty `worldTotals`, hence the `Option` fields. -/
structure AllGasesResponse where
  year : Option ℤ
  yearRangeSince : Option ℤ
  yearRangeTo : Option ℤ
  source : Option String
  lastUpdated : Option String
  worldTotals : Option GasValuesDetail
  countries : List AllGasesCountry
deriving Repr, DecidableEq

/-- Formats raw gas values with units and display names. -/
def mkGasValuesDetail (g : RawGasValues) : GasValuesDetail :=
  { co2 := { value := jsRound (orZero g.co2 / 1000000), unit := "Mt", name := "Carbon Dioxide" }
    ch4 := { value := jsRound (orZero g.ch4 / 1000), unit := "kt", name := "Methane" }
    n2o := { value := jsRound (orZero g.n2o / 1000), unit := "kt", name := "Nitrous Oxide" }
    co2e_100yr := { value := jsRound (orZero g.co2e_100yr / 1000000), unit := "Mt",
                    name := "CO2 Equivalent (100yr)" }
    co2e_20yr := { value := jsRound (orZero g.co2e_20yr / 1000000), unit := "Mt",
                   name := "CO2 Equivalent (20yr)" } }

/-- `getAllGasesEmissions(options)`. -/
def getAllGasesEmissionsS (up : Upstream) (now : ℤ) (nowIso : String)
    (opts : AllGasesOptions) (s : St) : AllGasesResponse × St :=
  let s0 := initCountryNamesS up now s
  let top := getTopEmittingCountryCodesS up now opts.since opts.toYear opts.limit s0
  let s1 := { top.2 with calls := top.2.calls + 1 }
  match up.countryEmissions opts.since opts.toYear (some (String.intercalate "," top.1)) with
  | some data =>
    let countries := sortDescBy (fun c => (c.gases.co2e_100yr.value : ℚ))
      ((data.filter countryFilter).map (fun d =>
        ({ country := d.country.getD ""
           name := getCountryName s1.countryNameCache (d.country.getD "")
           rank := d.rank
           gases := mkGasValuesDetail (gasOf d.emissions) } : AllGasesCountry)))
    let worldData := (data.head?.bind (·.worldEmissions)).getD RawGasValues.empty
    ({ year := some opts.toYear
       yearRangeSince := some opts.since
       yearRangeTo := some opts.toYear
       source := some "Data Source: Climate TRACE"
       lastUpdated := some nowIso
       worldTotals := some (mkGasValuesDetail worldData)
       countries := countries }, s1)
  | none =>
    ({ year := none, yearRangeSince := none, yearRangeTo := none, source := none,
       lastUpdated := none, worldTotals := none, countries := [] }, s1)

/-! ### Inputs and oracles used by concrete witnesses and counterexamples -/

/-- Witness input for C10: a 2 Mt sector and a 0.4 Mt sector (which rounds to
0 Mt and must be dropped). -/
def w10data : AssetsData :=
  [("CHN", some [⟨some "power", some "co2e_100yr", some 2000000⟩,
                 ⟨some "steel", some "co2e_100yr", some 400000⟩])]

/-- Definitions for the C5 counterexample: one country with zero normalized CO2
mapped to `Asia`, so `totalAssigned = 0`. -/
def cexZeroCountry : CountryEmission :=
  { country := "CHN", name := "China", rank := none, previousRank := none
    emissions := ⟨0, 0, 0, 0, 0⟩, share := 0 }

/-- Country definitions for the C5 counterexample. -/
def cexOneDef : List RawCountryDef := [⟨some "CHN", some "China", some "Asia"⟩]

/-- Witness inputs for C5: two mapped countries (100 and 50 Mt) and one
unmapped country. -/
def w5defs : List RawCountryDef :=
  [⟨some "CHN", some "China", some "Asia"⟩,
   ⟨some "USA", some "United States", some "North America"⟩]

/-- Witness countries for C5. -/
def w5countries : List CountryEmission :=
  [{ country := "CHN", name := "China", rank := none, previousRank := none
     emissions := ⟨100, 0, 0, 0, 0⟩, share := 0 },
   { country := "USA", name := "United States", rank := none, previousRank := none
     emissions := ⟨50, 0, 0, 0, 0⟩, share := 0 },
   { country := "ZZZ", name := "Nowhere", rank := none, previousRank := none
     emissions := ⟨77, 0, 0, 0, 0⟩, share := 0 }]

/-- The single industry-share table a `getEmissionsTrends` call computes for its
whole window (before the per-year loop). -/
def trendsWindowBreakdown (up : Upstream) (now : ℤ) (opts : TrendsOptions) (s : St) :
    IndustryBreakdown :=
  (getRealIndustryBreakdownS up now opts.startYear opts.endYear (initCountryNamesS up now s)).1

/-- A trend point whose six industry values are its own total scaled by the
given share table (rounded). -/
def trendPointMatches (bd : IndustryBreakdown) (p : TrendPoint) : Prop :=
  p.Energy = jsRound ((p.total : ℚ) * bd.Energy) ∧
  p.Manufacturing = jsRound ((p.total : ℚ) * bd.Manufacturing) ∧
  p.Transportation = jsRound ((p.total : ℚ) * bd.Transportation) ∧
  p.Buildings = jsRound ((p.total : ℚ) * bd.Buildings) ∧
  p.Agriculture = jsRound ((p.total : ℚ) * bd.Agriculture) ∧
  p.WasteAndLandUse = jsRound ((p.total : ℚ) * bd.WasteAndLandUse)

/-- Upstream oracle for the C6 witness: an empty registry, a succeeding (empty)
emissions endpoint and a failing assets endpoint (so the fallback share table
is used). -/
def trendsWitnessUpstream : Upstream :=
  { definitionsCountries := some []
    definitionsSectors := none
    countryEmissions := fun _ _ _ => some []
    assetsEmissions := fun _ _ _ => none }

/-- Options for the C6 witness. -/
def trendsWitnessOpts : TrendsOptions :=
  { startYear := 2023, endYear := 2023, countries := some "CHN" }

/-- The everywhere-failing upstream (network error or non-2xx on every
endpoint). -/
def failingUpstream : Upstream :=
  { definitionsCountries := none
    definitionsSectors := none
    countryEmissions := fun _ _ _ => none
    assetsEmissions := fun _ _ _ => none }

/-- An upstream whose country-emissions endpoint succeeds with an empty array
and whose registry is empty. -/
def emptyOkUpstream : Upstream :=
  { definitionsCountries := some []
    definitionsSectors := none
    countryEmissions := fun _ _ _ => some []
    assetsEmissions := fun _ _ _ => none }

/-- A country definition used by the C4 counterexample. -/
def usaDef : RawCountryDef := ⟨some "USA", some "United States", some "North America"⟩

/-- A state holding a last known good countries value whose cache entry has
expired. -/
def staleSt : St :=
  { St.init with countries := some [usaDef], lastFetch := [("countries", 0)] }

/-- Options used by the C3 witness. -/
def c3opts : CountryEmissionsOptions :=
  { since := 2023, toYear := 2023, countries := some "CHN", limit := 50 }

/-- An upstream whose assets endpoint succeeds with an empty feed. -/
def sectorOkUpstream : Upstream :=
  { definitionsCountries := none
    definitionsSectors := none
    countryEmissions := fun _ _ _ => none
    assetsEmissions := fun _ _ _ => some [] }

/-- Witness input for the C1 theorems: raw CO2 1.4 Mt against a raw world total
of 3 Mt. -/
def cexShareRecord : RawCountryRecord :=
  { country := some "CHN"
    rank := none
    previousRank := none
    emissions := some ⟨some 1400000, none, none, none, none⟩
    worldEmissions := some ⟨some 3000000, none, none, none, none⟩ }

/-- Counterexample input for C9: two countries of 1 Mt each while the upstream
world total is 10 Mt. -/
def cexWorldRecordA : RawCountryRecord :=
  { country := some "AAA"
    rank := none
    previousRank := none
    emissions := some ⟨some 1000000, none, none, none, none⟩
    worldEmissions := some ⟨some 10000000, none, none, none, none⟩ }

/-- Second record of the C9 counterexample. -/
def cexWorldRecordB : RawCountryRecord :=
  { country := some "BBB"
    rank := none
    previousRank := none
    emissions := some ⟨some 1000000, none, none, none, none⟩
    worldEmissions := none }

/-! ## General lemmas about the sorting and association-list helpers -/

theorem mem_insertDescBy {key : α → ℚ} {x y : α} {l : List α} :
    y ∈ insertDescBy key x l ↔ y = x ∨ y ∈ l := by
  induction l with
  | nil => simp [insertDescBy]
  | cons z zs ih =>
    simp only [insertDescBy]
    split
    · rw [List.mem_cons, ih, List.mem_cons]
      tauto
    · simp only [List.mem_cons]

theorem perm_insertDescBy (key : α → ℚ) (x : α) (l : List α) :
    List.Perm (insertDescBy key x l) (x :: l) := by
  induction l with
  | nil => simp [insertDescBy]
  | cons z zs ih =>
    simp only [insertDescBy]
    split
    · exact (ih.cons z).trans (List.Perm.swap x z zs)
    · exact List.Perm.refl _

theorem sortDescBy_perm (key : α → ℚ) (l : List α) : List.Perm (sortDescBy key l) l := by
  induction l with
  | nil => simp [sortDescBy]
  | cons z zs ih =>
    have h : sortDescBy key (z :: zs) = insertDescBy key z (sortDescBy key zs) := rfl
    rw [h]
    exact (perm_insertDescBy key z _).trans (ih.cons z)

theorem mem_sortDescBy {key : α → ℚ} {y : α} {l : List α} :
    y ∈ sortDescBy key l ↔ y ∈ l :=
  (sortDescBy_perm key l).mem_iff

theorem sorted_insertDescBy {key : α → ℚ} {x : α} {l : List α}
    (h : List.Sorted (fun a b => key b ≤ key a) l) :
    List.Sorted (fun a b => key b ≤ key a) (insertDescBy key x l) := by
  induction l with
  | nil => simp [insertDescBy]
  | cons z zs ih =>
    rw [List.sorted_cons] at h
    simp only [insertDescBy]
    split
    · rename_i hle
      rw [List.sorted_cons]
      refine ⟨?_, ih h.2⟩
      intro b hb
      rcases mem_insertDescBy.mp hb with rfl | hbz
      · exact hle
      · exact h.1 b hbz
    · rename_i hgt
      rw [List.sorted_cons]
      refine ⟨?_, List.sorted_cons.mpr h⟩
      intro b hb
      rcases List.mem_cons.mp hb with rfl | hb
      · exact le_of_lt (lt_of_not_le hgt)
      · exact le_trans (h.1 b hb) (le_of_lt (lt_of_not_le hgt))

theorem sortDescBy_sorted (key : α → ℚ) (l : List α) :
    List.Sorted (fun a b => key b ≤ key a) (sortDescBy key l) := by
  induction l with
  | nil => simp [sortDescBy]
  | cons z zs ih => exact sorted_insertDescBy ih

theorem lookup_upsert_self (m : List (String × β)) (k : String) (v : β) :
    (upsert m k v).lookup k = some v := by
  induction m with
  | nil => simp [upsert, List.lookup]
  | cons kv m ih =>
    obtain ⟨k', v'⟩ := kv
    by_cases h : k' = k
    · subst h
      simp [upsert, List.lookup]
    · simp only [upsert, if_neg h, List.lookup]
      have : (k == k') = false := by
        simp [beq_iff_eq]
        exact fun hk => h hk.symm
      rw [this]
      exact ih

/-- A fold preserves any invariant its step function preserves. -/
theorem foldl_preserve {β γ : Type _} {P : β → Prop} (step : β → γ → β)
    (hstep : ∀ b c, P b → P (step b c)) (l : List γ) (b : β) (hb : P b) :
    P (l.foldl step b) := by
  induction l generalizing b with
  | nil => exact hb
  | cons c cs ih => exact ih _ (hstep b c hb)

theorem mem_keys_addToSector {m : List (String × SectorAccum)} {sector x : String} {v : ℚ}
    (hx : x ∈ (addToSector m sector v).map Prod.fst) :
    x ∈ m.map Prod.fst ∨ x = sector := by
  induction m with
  | nil =>
    simp only [addToSector, List.map_cons, List.map_nil, List.mem_singleton] at hx
    exact Or.inr hx
  | cons kv rest ih =>
    obtain ⟨k, a⟩ := kv
    by_cases h : k = sector
    · subst h
      simp only [addToSector, if_true, List.map_cons, List.mem_cons] at hx ⊢
      tauto
    · simp only [addToSector, if_neg h, List.map_cons, List.mem_cons] at hx ⊢
      rcases hx with rfl | hx
      · exact Or.inl (Or.inl rfl)
      · rcases ih hx with hm | hs
        · exact Or.inl (Or.inr hm)
        · exact Or.inr hs

theorem nodup_keys_addToSector {m : List (String × SectorAccum)} {sector : String} {v : ℚ}
    (h : (m.map Prod.fst).Nodup) : ((addToSector m sector v).map Prod.fst).Nodup := by
  induction m with
  | nil => simp [addToSector]
  | cons kv rest ih =>
    obtain ⟨k, a⟩ := kv
    rw [List.map_cons, List.nodup_cons] at h
    by_cases hk : k = sector
    · subst hk
      simpa [addToSector, List.nodup_cons] using h
    · rw [addToSector, if_neg hk, List.map_cons, List.nodup_cons]
      refine ⟨fun hmem => ?_, ih h.2⟩
      rcases mem_keys_addToSector hmem with hm | hs
      · exact h.1 hm
      · exact hk hs

theorem lookup_eq_of_mem_nodup {β : Type _} {m : List (String × β)} {kv : String × β}
    (hnd : (m.map Prod.fst).Nodup) (hm : kv ∈ m) : m.lookup kv.1 = some kv.2 := by
  induction m with
  | nil => cases hm
  | cons kv' rest ih =>
    obtain ⟨k, a⟩ := kv'
    rw [List.map_cons, List.nodup_cons] at hnd
    rcases List.mem_cons.mp hm with rfl | hm'
    · simp [List.lookup]
    · have hne : kv.1 ≠ k := by
        intro he
        exact hnd.1 (he ▸ List.mem_map.mpr ⟨kv, hm', rfl⟩)
      have : (kv.1 == k) = false := by
        simpa [beq_iff_eq] using hne
      simp only [List.lookup, this]
      exact ih hnd.2 hm'

theorem nodup_keys_buildSectorMap (data : AssetsData) :
    ((buildSectorMap data).map Prod.fst).Nodup := by
  refine foldl_preserve (P := fun m => (m.map Prod.fst).Nodup) sectorCountryStep ?_ data []
    List.nodup_nil
  intro m ce hm
  match hce : ce.2 with
  | none => simpa [sectorCountryStep, hce] using hm
  | some ems =>
    rw [sectorCountryStep, hce]
    refine foldl_preserve (P := fun m => (m.map Prod.fst).Nodup) sectorRowStep ?_ ems m hm
    intro m' e hm'
    rw [sectorRowStep]
    split
    · exact hm'
    · exact nodup_keys_addToSector hm'

/-! ## C10: strictly positive sector records -/

/-- C10: every sector record that `processSectorEmissions` returns has a
strictly positive megatonne value, and a sector whose accumulated `co2e_100yr`
total rounds to 0 megatonnes (or less) does not occur in the output at all. -/
theorem sectors_positive_and_zero_dropped (data : AssetsData) :
    (∀ s ∈ (processSectorEmissions data).sectors, 0 < s.emissions) ∧
    (∀ nm acc, (buildSectorMap data).lookup nm = some acc →
      jsRound (acc.co2e / 1000000) ≤ 0 →
      nm ∉ (processSectorEmissions data).sectors.map (fun s => s.name)) := by
  constructor
  · intro s hs
    have hs' := mem_sortDescBy.mp hs
    have hfil := (List.mem_filter.mp hs').2
    exact of_decide_eq_true hfil
  · intro nm acc hlk hle hmem
    obtain ⟨s, hs, hname⟩ := List.mem_map.mp hmem
    have hs' := mem_sortDescBy.mp hs
    obtain ⟨hmemf, hpos⟩ := List.mem_filter.mp hs'
    obtain ⟨kv, hkv, hmk⟩ := List.mem_map.mp hmemf
    have hposZ : 0 < s.emissions := of_decide_eq_true hpos
    have hlk2 : (buildSectorMap data).lookup kv.1 = some kv.2 :=
      lookup_eq_of_mem_nodup (nodup_keys_buildSectorMap data) hkv
    have hname2 : kv.1 = nm := by rw [← hname, ← hmk]
    have hacc : kv.2 = acc := by
      rw [hname2] at hlk2
      exact Option.some.inj (hlk2.symm.trans hlk)
    have hemis : s.emissions = jsRound (kv.2.co2e / 1000000) := by rw [← hmk]
    rw [hemis, hacc] at hposZ
    exact absurd hle (not_le.mpr hposZ)

/-- C10 witness: the theorem instantiated at a concrete feed. -/
theorem sectors_positive_and_zero_dropped_witness :
    (∀ s ∈ (processSectorEmissions w10data).sectors, 0 < s.emissions) ∧
    "Steel Production" ∉ (processSectorEmissions w10data).sectors.map (fun s => s.name) :=
  ⟨(sectors_positive_and_zero_dropped w10data).1,
   (sectors_positive_and_zero_dropped w10data).2 "Steel Production" ⟨400000, 1⟩ rfl
     (by norm_num [jsRound])⟩

/-! ## Rounding error bounds -/

theorem abs_toFixed1_sub_le (q : ℚ) : |toFixed1 q - q| ≤ 1 / 20 := by
  have h1 : ((⌊q * 10 + 1/2⌋ : ℤ) : ℚ) ≤ q * 10 + 1/2 := Int.floor_le _
  have h2 : q * 10 + 1/2 < (⌊q * 10 + 1/2⌋ : ℤ) + 1 := Int.lt_floor_add_one _
  rw [toFixed1, jsRound, abs_le]
  constructor <;> linarith

theorem abs_sum_map_toFixed1 (l : List ℚ) :
    |(l.map toFixed1).sum - l.sum| ≤ (l.length : ℚ) / 20 := by
  induction l with
  | nil => simp
  | cons q qs ih =>
    simp only [List.map_cons, List.sum_cons, List.length_cons]
    have h := abs_toFixed1_sub_le q
    have htri : |toFixed1 q + (qs.map toFixed1).sum - (q + qs.sum)|
        ≤ |toFixed1 q - q| + |(qs.map toFixed1).sum - qs.sum| := by
      have heq : toFixed1 q + (qs.map toFixed1).sum - (q + qs.sum)
          = (toFixed1 q - q) + ((qs.map toFixed1).sum - qs.sum) := by ring
      rw [heq]
      exact abs_add _ _
    have hcast : ((qs.length + 1 : ℕ) : ℚ) = (qs.length : ℚ) + 1 := by push_cast; ring
    rw [hcast]
    calc |toFixed1 q + (qs.map toFixed1).sum - (q + qs.sum)|
        ≤ |toFixed1 q - q| + |(qs.map toFixed1).sum - qs.sum| := htri
      _ ≤ 1/20 + (qs.length : ℚ)/20 := add_le_add h ih
      _ = ((qs.length : ℚ) + 1)/20 := by ring

theorem sum_map_intCast_mul (l : List ℤ) (c : ℚ) :
    (l.map (fun e : ℤ => (e : ℚ) * c)).sum = (l.sum : ℚ) * c := by
  induction l with
  | nil => simp
  | cons e es ih =>
    simp only [List.map_cons, List.sum_cons, ih]
    push_cast
    ring

/-! ## C5: regional aggregation invariants -/

theorem sum_addCountryToRegion (rd : List (String × RegionAccum)) (cont : String)
    (c : CountryEmission) :
    ((addCountryToRegion rd cont c).map (fun kv => kv.2.emissions)).sum
      = (rd.map (fun kv => kv.2.emissions)).sum + c.emissions.co2 := by
  induction rd with
  | nil => simp [addCountryToRegion]
  | cons kv rest ih =>
    obtain ⟨k, r⟩ := kv
    by_cases h : k = cont
    · subst h
      simp only [addCountryToRegion, if_true, List.map_cons, List.sum_cons]
      ring
    · simp only [addCountryToRegion, if_neg h, List.map_cons, List.sum_cons, ih]
      ring

theorem buildRegionData_sum (ctc : List (String × String)) (countries : List CountryEmission) :
    ((buildRegionData ctc countries).1.map (fun kv => kv.2.emissions)).sum
      = (buildRegionData ctc countries).2 := by
  refine foldl_preserve (P := fun acc : List (String × RegionAccum) × ℤ =>
      (acc.1.map (fun kv => kv.2.emissions)).sum = acc.2)
    (regionStep ctc) ?_ countries ([], 0) (by simp)
  intro acc c hacc
  rcases hl : ctc.lookup c.country with _ | cont
  · simpa [regionStep, hl] using hacc
  · by_cases hcont : cont = ""
    · simpa [regionStep, hl, hcont] using hacc
    · simp only [regionStep, hl, if_neg hcont]
      rw [sum_addCountryToRegion, hacc]

theorem addCountryToRegion_invariant {Q : CountryEmission → Prop}
    {rd : List (String × RegionAccum)} {cont : String} {c : CountryEmission}
    (hcont : cont ≠ "") (hc : Q c)
    (h : ∀ kv ∈ rd, kv.2.name ≠ "" ∧ ∀ x ∈ kv.2.countryList, Q x) :
    ∀ kv ∈ addCountryToRegion rd cont c, kv.2.name ≠ "" ∧ ∀ x ∈ kv.2.countryList, Q x := by
  induction rd with
  | nil =>
    intro kv hkv
    simp only [addCountryToRegion, List.mem_singleton] at hkv
    subst hkv
    refine ⟨hcont, ?_⟩
    intro x hx
    simp only [List.mem_singleton] at hx
    subst hx
    exact hc
  | cons kv0 rest ih =>
    obtain ⟨k, r⟩ := kv0
    intro kv hkv
    by_cases hk : k = cont
    · subst hk
      simp only [addCountryToRegion, if_true] at hkv
      rcases List.mem_cons.mp hkv with rfl | hkv'
      · have hold := h (k, r) (List.mem_cons_self _ _)
        refine ⟨hold.1, ?_⟩
        intro x hx
        rcases List.mem_append.mp hx with hx | hx
        · exact hold.2 x hx
        · simp only [List.mem_singleton] at hx
          subst hx
          exact hc
      · exact h _ (List.mem_cons_of_mem _ hkv')
    · simp only [addCountryToRegion, if_neg hk] at hkv
      rcases List.mem_cons.mp hkv with rfl | hkv'
      · exact h _ (List.mem_cons_self _ _)
      · exact ih (fun kv h' => h kv (List.mem_cons_of_mem _ h')) _ hkv'

theorem buildRegionData_invariant (ctc : List (String × String))
    (countries : List CountryEmission) :
    ∀ kv ∈ (buildRegionData ctc countries).1,
      kv.2.name ≠ "" ∧ ∀ x ∈ kv.2.countryList, truthyStr (ctc.lookup x.country) = true := by
  refine foldl_preserve (P := fun acc : List (String × RegionAccum) × ℤ =>
      ∀ kv ∈ acc.1, kv.2.name ≠ "" ∧
        ∀ x ∈ kv.2.countryList, truthyStr (ctc.lookup x.country) = true)
    (regionStep ctc) ?_ countries ([], 0) (by intro kv h; cases h)
  intro acc c hacc
  rcases hl : ctc.lookup c.country with _ | cont
  · simpa [regionStep, hl] using hacc
  · by_cases hcont : cont = ""
    · simpa [regionStep, hl, hcont] using hacc
    · simp only [regionStep, hl, if_neg hcont]
      refine addCountryToRegion_invariant hcont ?_ hacc
      rw [hl]
      exact decide_eq_true hcont

/-- C5 (amended): a country whose continent cannot be resolved (falsy lookup in
the registry-derived map) appears in no region's country breakdown; every
region's percentage is computed against `totalAssigned` (the CO2 sum of the
countries assigned to some continent, not the world total); and when
`totalAssigned` is positive, the region percentages sum to 100 up to the
accumulated `toFixed(1)` rounding error (at most 1/20 per region).  When
`totalAssigned` is zero every percentage is 0, so the sum is 0, not 100. -/
theorem regional_aggregation_properties (countryDefs : List RawCountryDef)
    (countries : List CountryEmission) :
    (∀ c ∈ countries,
      truthyStr ((buildCountryToContinent countryDefs).lookup c.country) = false →
      ∀ r ∈ (processRegions countryDefs countries).regions,
        ∀ e ∈ r.countryBreakdown, e.code ≠ c.country) ∧
    (∀ r ∈ (processRegions countryDefs countries).regions,
      r.percentage =
        if 0 < (buildRegionData (buildCountryToContinent countryDefs) countries).2 then
          toFixed1 ((r.emissions : ℚ) /
            (((buildRegionData (buildCountryToContinent countryDefs) countries).2 : ℤ) : ℚ) * 100)
        else 0) ∧
    (0 < (buildRegionData (buildCountryToContinent countryDefs) countries).2 →
      |((processRegions countryDefs countries).regions.map (fun r => r.percentage)).sum - 100| ≤
        ((processRegions countryDefs countries).regions.length : ℚ) / 20) := by
  have hinv := buildRegionData_invariant (buildCountryToContinent countryDefs) countries
  have hsum := buildRegionData_sum (buildCountryToContinent countryDefs) countries
  have hregions : (processRegions countryDefs countries).regions
      = sortDescBy (fun r => (r.emissions : ℚ))
          ((((buildRegionData (buildCountryToContinent countryDefs) countries).1.map
              Prod.snd).filter (fun r => r.name ≠ "")).map
            (mkRegion (buildRegionData (buildCountryToContinent countryDefs) countries).2)) := rfl
  refine ⟨?_, ?_, ?_⟩
  · -- exclusion of unresolved countries
    intro c _ hfalsy r hr e he
    rw [hregions] at hr
    obtain ⟨racc, hracc, hmk⟩ := List.mem_map.mp (mem_sortDescBy.mp hr)
    have hracc' := (List.mem_filter.mp hracc).1
    obtain ⟨kv, hkv, hsnd⟩ := List.mem_map.mp hracc'
    subst hmk
    obtain ⟨x, hx, hex⟩ := List.mem_map.mp he
    have hx' : x ∈ racc.countryList :=
      mem_sortDescBy.mp (List.take_subset _ _ hx)
    have hq : truthyStr ((buildCountryToContinent countryDefs).lookup x.country) = true := by
      have := (hinv kv hkv).2 x (by rw [hsnd]; exact hx')
      exact this
    intro hcode
    have hxc : x.country = c.country := by rw [← hex] at hcode; exact hcode
    rw [hxc, hfalsy] at hq
    cases hq
  · -- denominator is totalAssigned
    intro r hr
    rw [hregions] at hr
    obtain ⟨racc, _, hmk⟩ := List.mem_map.mp (mem_sortDescBy.mp hr)
    subst hmk
    rfl
  · -- percentages sum to 100 up to rounding
    intro hT
    have hfil : (((buildRegionData (buildCountryToContinent countryDefs) countries).1.map
        Prod.snd).filter (fun r => r.name ≠ ""))
        = (buildRegionData (buildCountryToContinent countryDefs) countries).1.map Prod.snd := by
      apply List.filter_eq_self.mpr
      intro racc hracc
      obtain ⟨kv, hkv, hsnd⟩ := List.mem_map.mp hracc
      exact decide_eq_true (hsnd ▸ (hinv kv hkv).1)
    have hmapped : ((processRegions countryDefs countries).regions.map
        (fun r => r.percentage)).sum
        = ((((buildRegionData (buildCountryToContinent countryDefs) countries).1.map
            Prod.snd).map
            (mkRegion (buildRegionData (buildCountryToContinent countryDefs) countries).2)).map
          (fun r => r.percentage)).sum := by
      rw [hregions, hfil]
      exact ((sortDescBy_perm (fun r : Region => (r.emissions : ℚ)) _).map
        (fun r : Region => r.percentage)).sum_eq
    have hlen : (processRegions countryDefs countries).regions.length
        = (buildRegionData (buildCountryToContinent countryDefs) countries).1.length := by
      rw [hregions, hfil, (sortDescBy_perm _ _).length_eq, List.length_map, List.length_map]
    have hpt : ((((buildRegionData (buildCountryToContinent countryDefs) countries).1.map
          Prod.snd).map
          (mkRegion (buildRegionData (buildCountryToContinent countryDefs) countries).2)).map
        (fun r => r.percentage))
        = ((buildRegionData (buildCountryToContinent countryDefs) countries).1.map
            (fun kv => (kv.2.emissions : ℚ) /
              (((buildRegionData (buildCountryToContinent countryDefs) countries).2 : ℤ) : ℚ)
              * 100)).map toFixed1 := by
      simp only [List.map_map]
      apply List.map_congr_left
      intro kv _
      show (mkRegion (buildRegionData (buildCountryToContinent countryDefs) countries).2
        kv.2).percentage = _
      show (if 0 < (buildRegionData (buildCountryToContinent countryDefs) countries).2 then
        toFixed1 ((kv.2.emissions : ℚ) /
          (((buildRegionData (buildCountryToContinent countryDefs) countries).2 : ℤ) : ℚ) * 100)
        else 0) = _
      rw [if_pos hT]
      rfl
    have hq100 : ((buildRegionData (buildCountryToContinent countryDefs) countries).1.map
        (fun kv => (kv.2.emissions : ℚ) /
          (((buildRegionData (buildCountryToContinent countryDefs) countries).2 : ℤ) : ℚ)
          * 100)).sum = 100 := by
      have hne : ((((buildRegionData (buildCountryToContinent countryDefs) countries).2 : ℤ))
          : ℚ) ≠ 0 := by
        exact_mod_cast ne_of_gt hT
      have h1 : ((buildRegionData (buildCountryToContinent countryDefs) countries).1.map
          (fun kv => (kv.2.emissions : ℚ) /
            (((buildRegionData (buildCountryToContinent countryDefs) countries).2 : ℤ) : ℚ)
            * 100))
          = ((buildRegionData (buildCountryToContinent countryDefs) countries).1.map
              (fun kv => kv.2.emissions)).map
            (fun e : ℤ => (e : ℚ) * (100 /
              (((buildRegionData (buildCountryToContinent countryDefs) countries).2 : ℤ) : ℚ))) := by
        rw [List.map_map]
        apply List.map_congr_left
        intro kv _
        simp only [Function.comp]
        ring
      rw [h1, sum_map_intCast_mul, hsum]
      field_simp
    have hlenq : ((buildRegionData (buildCountryToContinent countryDefs) countries).1.map
        (fun kv => (kv.2.emissions : ℚ) /
          (((buildRegionData (buildCountryToContinent countryDefs) countries).2 : ℤ) : ℚ)
          * 100)).length
        = (buildRegionData (buildCountryToContinent countryDefs) countries).1.length :=
      List.length_map _ _
    have hb := abs_sum_map_toFixed1
      ((buildRegionData (buildCountryToContinent countryDefs) countries).1.map
        (fun kv => (kv.2.emissions : ℚ) /
          (((buildRegionData (buildCountryToContinent countryDefs) countries).2 : ℤ) : ℚ)
          * 100))
    rw [hlenq, hq100] at hb
    rw [hmapped, hpt, hlen]
    exact hb

/-- C5 counterexample: with one region whose assigned total is 0, the region
percentages sum to 0, not 100 up to rounding error — the sum property fails
when `totalAssigned` is not positive. -/
theorem region_percentages_sum_zero_counterexample :
    (processRegions cexOneDef [cexZeroCountry]).regions.length = 1 ∧
    ((processRegions cexOneDef [cexZeroCountry]).regions.map (fun r => r.percentage)).sum = 0 ∧
    ¬ |((processRegions cexOneDef [cexZeroCountry]).regions.map (fun r => r.percentage)).sum
        - 100| ≤ ((processRegions cexOneDef [cexZeroCountry]).regions.length : ℚ) / 20 := by
  have hmap : (processRegions cexOneDef [cexZeroCountry]).regions.map (fun r => r.percentage)
      = [(0 : ℚ)] := rfl
  have hlen : (processRegions cexOneDef [cexZeroCountry]).regions.length = 1 := rfl
  refine ⟨hlen, ?_, ?_⟩
  · rw [hmap]
    simp
  · rw [hmap, hlen]
    simp only [List.sum_cons, List.sum_nil, add_zero]
    norm_num

/-- C5 witness: the theorem instantiated at a concrete query with an unmapped
country and a positive assigned total. -/
theorem regional_aggregation_properties_witness :
    (∀ r ∈ (processRegions w5defs w5countries).regions,
      ∀ e ∈ r.countryBreakdown, e.code ≠ "ZZZ") ∧
    |((processRegions w5defs w5countries).regions.map (fun r => r.percentage)).sum - 100| ≤
      ((processRegions w5defs w5countries).regions.length : ℚ) / 20 :=
  ⟨(regional_aggregation_properties w5defs w5countries).1
      { country := "ZZZ", name := "Nowhere", rank := none, previousRank := none
        emissions := ⟨77, 0, 0, 0, 0⟩, share := 0 }
      (by decide) (by decide),
   (regional_aggregation_properties w5defs w5countries).2.2 (by decide)⟩

/-! ## C6: window-level industry shares in trends -/

theorem trendStep_foldl_matches (up : Upstream) (bd : IndustryBreakdown) (cl : String)
    (years : List ℤ) (acc : List TrendPoint × St)
    (hacc : ∀ p ∈ acc.1, trendPointMatches bd p) :
    ∀ p ∈ (years.foldl (trendStep up bd cl) acc).1, trendPointMatches bd p := by
  induction years generalizing acc with
  | nil => exact hacc
  | cons y ys ih =>
    refine ih _ ?_
    intro p hp
    simp only [trendStep] at hp
    rcases hf : up.countryEmissions y y (some cl) with _ | data
    · rw [hf] at hp
      exact hacc p hp
    · rw [hf] at hp
      rcases List.mem_append.mp hp with hp' | hp'
      · exact hacc p hp'
      · rw [List.mem_singleton.mp hp']
        exact ⟨rfl, rfl, rfl, rfl, rfl, rfl⟩

/-- C6: every trend point returned by `getEmissionsTrends` carries the six
industry values obtained by multiplying its own per-year world CO2 total (in
megatonnes) by the *window-level* industry shares computed once for the call,
rounded — the shares are constant across the window while the total scales. -/
theorem trend_points_scale_window_shares (up : Upstream) (now : ℤ) (opts : TrendsOptions)
    (s : St) :
    ∀ p ∈ (getEmissionsTrendsS up now opts s).1,
      trendPointMatches (trendsWindowBreakdown up now opts s) p := by
  intro p hp
  simp only [getEmissionsTrendsS] at hp
  exact trendStep_foldl_matches up (trendsWindowBreakdown up now opts s) _ _ _
    (by intro q hq; exact absurd hq (List.not_mem_nil q)) p hp

/-- C6 witness: the theorem instantiated at a one-year window. -/
theorem trend_points_scale_window_shares_witness :
    trendPointMatches (trendsWindowBreakdown trendsWitnessUpstream 0 trendsWitnessOpts St.init)
      (mkTrendPoint [] fallbackBreakdown 2023 []) :=
  trend_points_scale_window_shares trendsWitnessUpstream 0 trendsWitnessOpts St.init
    (mkTrendPoint [] fallbackBreakdown 2023 []) (List.mem_singleton.mpr rfl)

/-! ## C7: hardcoded fallback of the top-emitter resolver -/

theorem batchStep_foldl_empty (up : Upstream) (since toYear : ℤ)
    (hfail : ∀ p, up.countryEmissions since toYear p = none)
    (batches : List (List String)) (st : St) :
    (batches.foldl (batchStep up since toYear) ([], st)).1 = [] := by
  refine foldl_preserve (P := fun acc : List RawCountryRecord × St => acc.1 = [])
    (batchStep up since toYear) ?_ batches ([], st) rfl
  intro acc b hacc
  simp only [batchStep, hfail]
  exact hacc

/-- C7: on a cache miss, when the registry yields an empty country list or every
emissions batch fails, the top-emitter resolver returns the hardcoded fallback
list truncated to its first `limit` entries, which is non-empty for
`limit ≥ 1`. -/
theorem top_emitters_fallback (up : Upstream) (now since toYear : ℤ) (limit : ℕ) (s : St)
    (hmiss : s.topEmittersCache.lookup (topEmittersCacheKey since toYear limit) = none)
    (hfail : (getCountryDefinitionsS up now s).1 = [] ∨
             ∀ p, up.countryEmissions since toYear p = none) :
    (getTopEmittingCountryCodesS up now since toYear limit s).1 = fallbackEmitters.take limit ∧
    (1 ≤ limit → (getTopEmittingCountryCodesS up now since toYear limit s).1 ≠ []) := by
  have hmain : (getTopEmittingCountryCodesS up now since toYear limit s).1
      = fallbackEmitters.take limit := by
    simp only [getTopEmittingCountryCodesS, hmiss]
    simp only [topEmittersCompute]
    rcases hfail with hempty | hfetch
    · simp [hempty]
    · by_cases hempty2 : (getCountryDefinitionsS up now s).1.isEmpty
      · simp [hempty2]
      · simp only [hempty2, Bool.false_eq_true, if_false]
        rw [batchStep_foldl_empty up since toYear hfetch]
        simp
  refine ⟨hmain, ?_⟩
  intro hlim
  rw [hmain]
  cases limit with
  | zero => omega
  | succ n => simp [fallbackEmitters, List.take_succ_cons]

/-- C7 witness: with an empty registry and failing batches,
`getTopEmittingCountryCodes(2023, 2023, 5)` returns the first 5 fallback
codes. -/
theorem top_emitters_fallback_witness :
    (getTopEmittingCountryCodesS failingUpstream 0 2023 2023 5 St.init).1
      = fallbackEmitters.take 5 ∧
    (getTopEmittingCountryCodesS failingUpstream 0 2023 2023 5 St.init).1 ≠ [] :=
  ⟨(top_emitters_fallback failingUpstream 0 2023 2023 5 St.init rfl
      (Or.inr fun _ => rfl)).1,
   (top_emitters_fallback failingUpstream 0 2023 2023 5 St.init rfl
      (Or.inr fun _ => rfl)).2 (by omega)⟩

/-! ## C4: definitions fetch failure behaviour -/

/-- C4 (amended): when the upstream definitions endpoints fail, the definition
getters never throw and return the *empty* collection whenever they actually
fetch (cache empty or expired); the last known good value is returned only when
its cache entry is still fresh — a fetch failure never falls back to a stale
cached value. -/
theorem definitions_fail_empty (up : Upstream) (now : ℤ) (s : St)
    (h1 : up.definitionsCountries = none) (h2 : up.definitionsSectors = none) :
    ((s.countries = none ∨ cacheValid s.lastFetch "countries" now = false) →
      (getCountryDefinitionsS up now s).1 = []) ∧
    (∀ cs, s.countries = some cs → cacheValid s.lastFetch "countries" now = true →
      (getCountryDefinitionsS up now s).1 = cs) ∧
    ((s.sectors = none ∨ cacheValid s.lastFetch "sectors" now = false) →
      (getSectorDefinitionsS up now s).1 = []) ∧
    (∀ cs, s.sectors = some cs → cacheValid s.lastFetch "sectors" now = true →
      (getSectorDefinitionsS up now s).1 = cs) := by
  refine ⟨?_, ?_, ?_, ?_⟩
  · intro hmiss
    rcases hc : s.countries with _ | cs
    · simp [getCountryDefinitionsS, hc, countryDefsFetch, h1]
    · rcases hmiss with hnone | hstale
      · rw [hc] at hnone
        simp at hnone
      · simp [getCountryDefinitionsS, hc, hstale, countryDefsFetch, h1]
  · intro cs hsome hvalid
    simp [getCountryDefinitionsS, hsome, hvalid]
  · intro hmiss
    rcases hc : s.sectors with _ | cs
    · simp [getSectorDefinitionsS, hc, sectorDefsFetch, h2]
    · rcases hmiss with hnone | hstale
      · rw [hc] at hnone
        simp at hnone
      · simp [getSectorDefinitionsS, hc, hstale, sectorDefsFetch, h2]
  · intro cs hsome hvalid
    simp [getSectorDefinitionsS, hsome, hvalid]

/-- C4 counterexample: with an expired cache entry, a previously fetched value
present, and a failing upstream, `getCountryDefinitions` returns the empty
list — not the last known good value. -/
theorem stale_definitions_failure_returns_empty :
    staleSt.countries = some [usaDef] ∧
    cacheValid staleSt.lastFetch "countries" CACHE_DURATION = false ∧
    (getCountryDefinitionsS failingUpstream CACHE_DURATION staleSt).1 = [] ∧
    ([] : List RawCountryDef) ≠ [usaDef] := by
  refine ⟨rfl, rfl, rfl, by decide⟩

/-- C4 witness: the amended theorem instantiated at the stale state. -/
theorem definitions_fail_empty_witness :
    (getCountryDefinitionsS failingUpstream CACHE_DURATION staleSt).1 = [] ∧
    (getSectorDefinitionsS failingUpstream CACHE_DURATION staleSt).1 = [] :=
  ⟨(definitions_fail_empty failingUpstream CACHE_DURATION staleSt rfl rfl).1 (Or.inr rfl),
   (definitions_fail_empty failingUpstream CACHE_DURATION staleSt rfl rfl).2.2.1 (Or.inl rfl)⟩

/-! ## State-field preservation lemmas -/

theorem getCountryDefinitionsS_emissionsCache (up : Upstream) (now : ℤ) (s : St) :
    (getCountryDefinitionsS up now s).2.emissionsCache = s.emissionsCache := by
  rcases hc : s.countries with _ | cs
  · simp only [getCountryDefinitionsS, hc, countryDefsFetch]
    rcases hd : up.definitionsCountries with _ | data <;> rfl
  · simp only [getCountryDefinitionsS, hc]
    split
    · rfl
    · simp only [countryDefsFetch]
      rcases hd : up.definitionsCountries with _ | data <;> rfl

theorem getCountryDefinitionsS_loaded (up : Upstream) (now : ℤ) (s : St) :
    (getCountryDefinitionsS up now s).2.countryNameCacheLoaded = s.countryNameCacheLoaded := by
  rcases hc : s.countries with _ | cs
  · simp only [getCountryDefinitionsS, hc, countryDefsFetch]
    rcases hd : up.definitionsCountries with _ | data <;> rfl
  · simp only [getCountryDefinitionsS, hc]
    split
    · rfl
    · simp only [countryDefsFetch]
      rcases hd : up.definitionsCountries with _ | data <;> rfl

theorem initCountryNamesS_emissionsCache (up : Upstream) (now : ℤ) (s : St) :
    (initCountryNamesS up now s).emissionsCache = s.emissionsCache := by
  rw [initCountryNamesS]
  split
  · rfl
  · exact getCountryDefinitionsS_emissionsCache up now s

theorem initCountryNamesS_loaded (up : Upstream) (now : ℤ) (s : St) :
    (initCountryNamesS up now s).countryNameCacheLoaded = true := by
  rw [initCountryNamesS]
  split
  · rename_i h
    exact h
  · rfl

theorem initCountryNamesS_of_loaded (up : Upstream) (now : ℤ) (s : St)
    (h : s.countryNameCacheLoaded = true) : initCountryNamesS up now s = s := by
  rw [initCountryNamesS, if_pos h]

/-! ## C2: degradation to empty responses on upstream failure -/

theorem countryEmissionsFetch_fail (up : Upstream)
    (he : ∀ a b p, up.countryEmissions a b p = none)
    (now : ℤ) (nowIso : String) (opts : CountryEmissionsOptions) (s : St) :
    (countryEmissionsFetch up now nowIso opts s).1
      = getEmptyResponse nowIso opts.since opts.toYear := by
  simp only [countryEmissionsFetch, he]

theorem getCountryEmissionsS_fail (up : Upstream)
    (he : ∀ a b p, up.countryEmissions a b p = none)
    (now : ℤ) (nowIso : String) (opts : CountryEmissionsOptions) (s : St)
    (hE : s.emissionsCache = []) :
    (getCountryEmissionsS up now nowIso opts s).1
      = getEmptyResponse nowIso opts.since opts.toYear := by
  simp only [getCountryEmissionsS]
  rw [initCountryNamesS_emissionsCache, hE]
  exact countryEmissionsFetch_fail up he now nowIso opts _

theorem trendStep_foldl_fail (up : Upstream)
    (he : ∀ a b p, up.countryEmissions a b p = none)
    (bd : IndustryBreakdown) (cl : String) (years : List ℤ) (acc : List TrendPoint × St)
    (hacc : acc.1 = []) :
    (years.foldl (trendStep up bd cl) acc).1 = [] := by
  refine foldl_preserve (P := fun acc : List TrendPoint × St => acc.1 = [])
    (trendStep up bd cl) ?_ years acc hacc
  intro a y ha
  simp only [trendStep, he]
  exact ha

/-- `processRegions` on an empty country list yields the empty response. -/
theorem processRegions_nil (defs : List RawCountryDef) :
    processRegions defs [] = { regions := [], topCountries := [] } := rfl

/-- C2 (amended): under upstream failure every fetch function of the core
returns its fixed structurally-valid empty value instead of throwing (the
functions are total).  `getCountryEmissions` returns `getEmptyResponse`, whose
`apiStatus` is `"error"`, whose country lists are empty and whose `worldTotals`
zeroes `co2`, `ch4`, `n2o` and `co2e_100yr` but *omits* the `co2e_20yr` field
that every success response carries.  `getSectorEmissions` returns empty lists
without the `total` field, `getEmissionsTrends` returns `[]`,
`getRegionalEmissions` returns empty regions, and `getAllGasesEmissions`
returns an object with only an empty `countries` list. -/
theorem fetch_functions_degrade_on_failure (up : Upstream)
    (hdc : up.definitionsCountries = none)
    (he : ∀ a b p, up.countryEmissions a b p = none)
    (ha : ∀ a b p, up.assetsEmissions a b p = none)
    (now : ℤ) (nowIso : String) :
    (∀ opts : CountryEmissionsOptions,
      (getCountryEmissionsS up now nowIso opts St.init).1
        = getEmptyResponse nowIso opts.since opts.toYear) ∧
    ((getEmptyResponse nowIso 2023 2023).apiStatus = "error" ∧
      (getEmptyResponse nowIso 2023 2023).worldTotals
        = { co2 := 0, ch4 := 0, n2o := 0, co2e_100yr := 0, co2e_20yr := none } ∧
      (getEmptyResponse nowIso 2023 2023).countries = [] ∧
      (getEmptyResponse nowIso 2023 2023).topCountries = []) ∧
    (∀ opts : SectorOptions,
      (getSectorEmissionsS up opts St.init).1
        = { sectors := [], industries := [], total := none }) ∧
    (∀ opts : TrendsOptions, (getEmissionsTrendsS up now opts St.init).1 = []) ∧
    (∀ opts : RegionalOptions,
      (getRegionalEmissionsS up now nowIso opts St.init).1
        = { regions := [], topCountries := [] }) ∧
    (∀ opts : AllGasesOptions,
      (getAllGasesEmissionsS up now nowIso opts St.init).1
        = { year := none, yearRangeSince := none, yearRangeTo := none, source := none,
            lastUpdated := none, worldTotals := none, countries := [] }) := by
  refine ⟨?_, ⟨rfl, rfl, rfl, rfl⟩, ?_, ?_, ?_, ?_⟩
  · intro opts
    exact getCountryEmissionsS_fail up he now nowIso opts St.init rfl
  · intro opts
    simp only [getSectorEmissionsS, ha]
  · intro opts
    simp only [getEmissionsTrendsS]
    exact trendStep_foldl_fail up he _ _ _ _ rfl
  · intro opts
    simp only [getRegionalEmissionsS]
    have hcd : ((getCountryDefinitionsS up now
        (initCountryNamesS up now St.init)).2).emissionsCache = [] := by
      rw [getCountryDefinitionsS_emissionsCache, initCountryNamesS_emissionsCache]
      rfl
    have hc := getCountryEmissionsS_fail up he now nowIso
      { since := opts.since, toYear := opts.toYear, countries := none, limit := 100 }
      ((getCountryDefinitionsS up now (initCountryNamesS up now St.init)).2) hcd
    rw [hc]
    exact processRegions_nil _
  · intro opts
    simp only [getAllGasesEmissionsS, he]

/-- C2 counterexample: the error response's `worldTotals` does not have the
same gas fields as a success response — it lacks `co2e_20yr`, which every
success response carries. -/
theorem error_worldTotals_lacks_co2e_20yr :
    (getCountryEmissionsS failingUpstream 0 "t" {} St.init).1.apiStatus = "error" ∧
    (getCountryEmissionsS failingUpstream 0 "t" {} St.init).1.worldTotals.co2e_20yr = none ∧
    (getCountryEmissionsS emptyOkUpstream 0 "t"
      { since := 2023, toYear := 2023, countries := some "CHN", limit := 50 }
      St.init).1.apiStatus = "live" ∧
    ((getCountryEmissionsS emptyOkUpstream 0 "t"
      { since := 2023, toYear := 2023, countries := some "CHN", limit := 50 }
      St.init).1.worldTotals.co2e_20yr).isSome = true :=
  ⟨rfl, rfl, rfl, rfl⟩

/-- C2 witness: the amended theorem instantiated at the failing upstream. -/
theorem fetch_functions_degrade_on_failure_witness :
    (getCountryEmissionsS failingUpstream 0 "t" {} St.init).1
      = getEmptyResponse "t" 2023 2023 ∧
    (getSectorEmissionsS failingUpstream {} St.init).1
      = { sectors := [], industries := [], total := none } ∧
    (getEmissionsTrendsS failingUpstream 0 {} St.init).1 = [] ∧
    (getRegionalEmissionsS failingUpstream 0 "t" {} St.init).1
      = { regions := [], topCountries := [] } ∧
    (getAllGasesEmissionsS failingUpstream 0 "t" {} St.init).1
      = { year := none, yearRangeSince := none, yearRangeTo := none, source := none,
          lastUpdated := none, worldTotals := none, countries := [] } :=
  ⟨(fetch_functions_degrade_on_failure failingUpstream rfl (fun _ _ _ => rfl)
      (fun _ _ _ => rfl) 0 "t").1 {},
   (fetch_functions_degrade_on_failure failingUpstream rfl (fun _ _ _ => rfl)
      (fun _ _ _ => rfl) 0 "t").2.2.1 {},
   (fetch_functions_degrade_on_failure failingUpstream rfl (fun _ _ _ => rfl)
      (fun _ _ _ => rfl) 0 "t").2.2.2.1 {},
   (fetch_functions_degrade_on_failure failingUpstream rfl (fun _ _ _ => rfl)
      (fun _ _ _ => rfl) 0 "t").2.2.2.2.1 {},
   (fetch_functions_degrade_on_failure failingUpstream rfl (fun _ _ _ => rfl)
      (fun _ _ _ => rfl) 0 "t").2.2.2.2.2 {}⟩

/-! ## C3: cache idempotence of getCountryEmissions; getSectorEmissions has no cache -/

theorem batchStep_foldl_state (up : Upstream) (since toYear : ℤ)
    (batches : List (List String)) (acc : List RawCountryRecord × St) :
    ((batches.foldl (batchStep up since toYear) acc).2.emissionsCache
        = acc.2.emissionsCache) ∧
    ((batches.foldl (batchStep up since toYear) acc).2.countryNameCacheLoaded
        = acc.2.countryNameCacheLoaded) := by
  refine foldl_preserve (P := fun a : List RawCountryRecord × St =>
      a.2.emissionsCache = acc.2.emissionsCache ∧
      a.2.countryNameCacheLoaded = acc.2.countryNameCacheLoaded)
    (batchStep up since toYear) ?_ batches acc ⟨rfl, rfl⟩
  intro a b hab
  simp only [batchStep]
  rcases hf : up.countryEmissions since toYear (some (String.intercalate "," b)) with _ | d <;>
    simp only [hf] <;> exact hab

theorem topEmittersCompute_state (up : Upstream) (now since toYear : ℤ) (limit : ℕ) (s : St) :
    (topEmittersCompute up now since toYear limit s).2.emissionsCache = s.emissionsCache ∧
    (topEmittersCompute up now since toYear limit s).2.countryNameCacheLoaded
      = s.countryNameCacheLoaded := by
  simp only [topEmittersCompute]
  split
  · exact ⟨getCountryDefinitionsS_emissionsCache up now s,
           getCountryDefinitionsS_loaded up now s⟩
  · have hb := batchStep_foldl_state up since toYear
      (chunksOf 50 (((getCountryDefinitionsS up now s).1.filter (fun c =>
        match c.alpha3 with
        | some a => a.length == 3
        | none => false)).map (fun c => c.alpha3.getD "")))
      ([], (getCountryDefinitionsS up now s).2)
    split
    · exact ⟨hb.1.trans (getCountryDefinitionsS_emissionsCache up now s),
             hb.2.trans (getCountryDefinitionsS_loaded up now s)⟩
    · exact ⟨hb.1.trans (getCountryDefinitionsS_emissionsCache up now s),
             hb.2.trans (getCountryDefinitionsS_loaded up now s)⟩

theorem getTopEmittingCountryCodesS_state (up : Upstream) (now since toYear : ℤ)
    (limit : ℕ) (s : St) :
    (getTopEmittingCountryCodesS up now since toYear limit s).2.emissionsCache
        = s.emissionsCache ∧
    (getTopEmittingCountryCodesS up now since toYear limit s).2.countryNameCacheLoaded
        = s.countryNameCacheLoaded := by
  simp only [getTopEmittingCountryCodesS]
  rcases hl : s.topEmittersCache.lookup (topEmittersCacheKey since toYear limit) with _ | c
  · simp only [hl]
    exact topEmittersCompute_state up now since toYear limit s
  · simp only [hl]
    split
    · exact ⟨rfl, rfl⟩
    · exact topEmittersCompute_state up now since toYear limit s

theorem resolveCountriesParam_state (up : Upstream) (now : ℤ)
    (opts : CountryEmissionsOptions) (s : St) :
    (resolveCountriesParam up now opts s).2.emissionsCache = s.emissionsCache ∧
    (resolveCountriesParam up now opts s).2.countryNameCacheLoaded
      = s.countryNameCacheLoaded := by
  simp only [resolveCountriesParam, topEmittersParam]
  rcases hoc : opts.countries with _ | c
  · simp only [hoc]
    exact getTopEmittingCountryCodesS_state up now opts.since opts.toYear opts.limit s
  · simp only [hoc]
    split
    · exact ⟨rfl, rfl⟩
    · exact getTopEmittingCountryCodesS_state up now opts.since opts.toYear opts.limit s

theorem countryEmissionsFetch_loaded (up : Upstream) (now : ℤ) (nowIso : String)
    (opts : CountryEmissionsOptions) (s : St) :
    (countryEmissionsFetch up now nowIso opts s).2.countryNameCacheLoaded
      = s.countryNameCacheLoaded := by
  simp only [countryEmissionsFetch]
  rcases hf : up.countryEmissions opts.since opts.toYear
      (resolveCountriesParam up now opts s).1 with _ | d <;> simp only [hf]
  · exact (resolveCountriesParam_state up now opts s).2
  · exact (resolveCountriesParam_state up now opts s).2

theorem countryEmissionsFetch_live (up : Upstream) (now : ℤ) (nowIso : String)
    (opts : CountryEmissionsOptions) (s : St)
    (h : (countryEmissionsFetch up now nowIso opts s).1.apiStatus = "live") :
    (countryEmissionsFetch up now nowIso opts s).2.emissionsCache.lookup
        (emissionsCacheKey opts.since opts.toYear opts.countries opts.limit)
      = some (countryEmissionsFetch up now nowIso opts s).1 ∧
    (countryEmissionsFetch up now nowIso opts s).2.lastFetch.lookup
        (emissionsCacheKey opts.since opts.toYear opts.countries opts.limit)
      = some now := by
  simp only [countryEmissionsFetch] at h ⊢
  rcases hf : up.countryEmissions opts.since opts.toYear
      (resolveCountriesParam up now opts s).1 with _ | d
  · rw [hf] at h
    simp [getEmptyResponse] at h
  · simp only [hf]
    exact ⟨lookup_upsert_self _ _ _, lookup_upsert_self _ _ _⟩

/-- C3 (amended): for `getCountryEmissions`, when a first call on a fresh cache
succeeds upstream (`apiStatus = "live"`), a second call with identical
parameters within the 30-minute cache window returns exactly the first result
and leaves the state — in particular the upstream call counter — untouched.
(The counterexample shows the claim fails for `getSectorEmissions`, which has
no cache at all.) -/
theorem second_call_within_window_cached (up : Upstream) (now₁ now₂ : ℤ)
    (iso₁ iso₂ : String) (opts : CountryEmissionsOptions)
    (hwin : now₂ - now₁ < CACHE_DURATION)
    (hlive : (getCountryEmissionsS up now₁ iso₁ opts St.init).1.apiStatus = "live") :
    getCountryEmissionsS up now₂ iso₂ opts
        (getCountryEmissionsS up now₁ iso₁ opts St.init).2
      = ((getCountryEmissionsS up now₁ iso₁ opts St.init).1,
         (getCountryEmissionsS up now₁ iso₁ opts St.init).2) := by
  have hfirst : getCountryEmissionsS up now₁ iso₁ opts St.init
      = countryEmissionsFetch up now₁ iso₁ opts (initCountryNamesS up now₁ St.init) := by
    simp only [getCountryEmissionsS]
    rw [initCountryNamesS_emissionsCache]
    rfl
  rw [hfirst] at hlive ⊢
  have hloaded : (countryEmissionsFetch up now₁ iso₁ opts
      (initCountryNamesS up now₁ St.init)).2.countryNameCacheLoaded = true := by
    rw [countryEmissionsFetch_loaded, initCountryNamesS_loaded]
  have hstruct := countryEmissionsFetch_live up now₁ iso₁ opts _ hlive
  simp only [getCountryEmissionsS]
  rw [initCountryNamesS_of_loaded _ _ _ hloaded]
  rw [hstruct.1]
  have hcv : cacheValid (countryEmissionsFetch up now₁ iso₁ opts
      (initCountryNamesS up now₁ St.init)).2.lastFetch
      (emissionsCacheKey opts.since opts.toYear opts.countries opts.limit) now₂ = true := by
    rw [cacheValid, hstruct.2]
    exact decide_eq_true hwin
  rw [hcv]
  simp

/-- C3 witness: two concrete calls 5 ms apart against a succeeding upstream. -/
theorem second_call_within_window_cached_witness :
    getCountryEmissionsS emptyOkUpstream 5 "b" c3opts
        (getCountryEmissionsS emptyOkUpstream 0 "a" c3opts St.init).2
      = ((getCountryEmissionsS emptyOkUpstream 0 "a" c3opts St.init).1,
         (getCountryEmissionsS emptyOkUpstream 0 "a" c3opts St.init).2) :=
  second_call_within_window_cached emptyOkUpstream 0 5 "a" "b" c3opts (by decide) rfl

/-- C3 counterexample: `getSectorEmissions` has no cache — a second call with
identical parameters, immediately after a successful first call, performs
another upstream request (the call counter increases from 1 to 2), refuting
the claim for this fetch function. -/
theorem sector_second_call_hits_upstream :
    (getSectorEmissionsS sectorOkUpstream {} St.init).2.calls = 1 ∧
    (getSectorEmissionsS sectorOkUpstream {}
        (getSectorEmissionsS sectorOkUpstream {} St.init).2).2.calls = 2 := ⟨rfl, rfl⟩

/-! ## C1: share recomputation -/

/-- Every record in the returned `countries` list is the image under
`mkCountryEmission` of a raw record that passed the country filter. -/
theorem mem_countries_processed (nameCache : List (String × String)) (nowIso : String)
    (data : List RawCountryRecord) (since toYear : ℤ) :
    ∀ r ∈ (processCountryEmissions nameCache nowIso data since toYear).countries,
      ∃ d ∈ data, countryFilter d = true ∧ r = mkCountryEmission nameCache d := by
  intro r hr
  have hr' : r ∈ (data.filter countryFilter).map (mkCountryEmission nameCache) :=
    mem_sortDescBy.mp hr
  obtain ⟨d, hd, hmk⟩ := List.mem_map.mp hr'
  obtain ⟨hd1, hd2⟩ := List.mem_filter.mp hd
  subst hmk
  exact ⟨d, hd1, hd2, rfl⟩

/-- C1 (amended): every returned country record is the image of a raw record that
passed the country filter, and its `share` is the 2-decimal rounding of
`rawCO2 / rawWorldCO2 * 100` computed from that record's own raw values
(0 when the raw world CO2 is missing or not positive). -/
theorem share_is_raw_recomputation (nameCache : List (String × String)) (nowIso : String)
    (data : List RawCountryRecord) (since toYear : ℤ) :
    ∀ r ∈ (processCountryEmissions nameCache nowIso data since toYear).countries,
      ∃ d ∈ data, countryFilter d = true ∧ r = mkCountryEmission nameCache d ∧
        r.share = rawShareSpec d := by
  intro r hr
  obtain ⟨d, hd, hfil, hmk⟩ := mem_countries_processed nameCache nowIso data since toYear r hr
  subst hmk
  exact ⟨d, hd, hfil, rfl, rfl⟩

/-- C1 witness: the amended statement instantiated at a concrete response. -/
theorem share_is_raw_recomputation_witness :
    countryFilter cexShareRecord = true ∧
    (mkCountryEmission [] cexShareRecord).share = rawShareSpec cexShareRecord := by
  obtain ⟨d, hd, hfil, _, hshare⟩ :=
    share_is_raw_recomputation [] "t" [cexShareRecord] 2023 2023
      (mkCountryEmission [] cexShareRecord) (List.mem_singleton.mpr rfl)
  rw [List.mem_singleton] at hd
  subst hd
  exact ⟨hfil, hshare⟩

/-- C1 counterexample: for this response the returned world total is positive,
yet the returned `share` (46.67, computed from raw values) differs from the
recomputation `country.co2 / worldTotals.co2 * 100` rounded to 2 decimals
(33.33) performed on the normalized, returned values. -/
theorem share_not_normalized_recomputation :
    0 < (processCountryEmissions [] "t" [cexShareRecord] 2023 2023).worldTotals.co2 ∧
    ∃ r ∈ (processCountryEmissions [] "t" [cexShareRecord] 2023 2023).countries,
      r.share ≠ toFixed2 ((r.emissions.co2 : ℚ) /
        ((processCountryEmissions [] "t" [cexShareRecord] 2023 2023).worldTotals.co2 : ℚ)
        * 100) := by
  have hw : (processCountryEmissions [] "t" [cexShareRecord] 2023 2023).worldTotals.co2
      = jsRound ((3000000 : ℚ) / 1000000) := rfl
  have hc : (processCountryEmissions [] "t" [cexShareRecord] 2023 2023).countries
      = [mkCountryEmission [] cexShareRecord] := rfl
  have he : (mkCountryEmission [] cexShareRecord).emissions.co2
      = jsRound ((1400000 : ℚ) / 1000000) := rfl
  have hs : (mkCountryEmission [] cexShareRecord).share
      = if 0 < ((3000000 : ℚ)) then toFixed2 ((1400000 : ℚ) / 3000000 * 100) else 0 := rfl
  refine ⟨?_, mkCountryEmission [] cexShareRecord, ?_, ?_⟩
  · rw [hw]
    norm_num [jsRound]
  · rw [hc]
    exact List.mem_singleton.mpr rfl
  · rw [hw, he, hs, if_pos (by norm_num)]
    norm_num [jsRound, toFixed2]

/-! ## C8: sorting and filtering of the countries list -/

/-- C8: for `since ≤ to`, the returned `countries` are sorted in descending
order of normalized CO2, and every record kept has a non-empty country code
different from the sentinel `"all"`. -/
theorem countries_sorted_desc (nameCache : List (String × String)) (nowIso : String)
    (data : List RawCountryRecord) (since toYear : ℤ) (hrange : since ≤ toYear) :
    List.Sorted (fun a b : CountryEmission => b.emissions.co2 ≤ a.emissions.co2)
      (processCountryEmissions nameCache nowIso data since toYear).countries ∧
    ∀ r ∈ (processCountryEmissions nameCache nowIso data since toYear).countries,
      r.country ≠ "" ∧ r.country ≠ "all" := by
  constructor
  · have h := sortDescBy_sorted (fun c : CountryEmission => (c.emissions.co2 : ℚ))
      ((data.filter countryFilter).map (mkCountryEmission nameCache))
    exact h.imp (fun hab => by exact_mod_cast hab)
  · intro r hr
    obtain ⟨d, _, hfil, hmk⟩ :=
      mem_countries_processed nameCache nowIso data since toYear r hr
    simp only [countryFilter, Bool.and_eq_true, decide_eq_true_eq] at hfil
    obtain ⟨ht, hall⟩ := hfil
    match hc : d.country with
    | none => rw [hc] at ht; simp [truthyStr] at ht
    | some c =>
      rw [hc] at ht hall
      simp only [truthyStr, decide_eq_true_eq] at ht
      have hcall : c ≠ "all" := fun h => hall (by rw [h])
      rw [hmk]
      simp only [mkCountryEmission, hc, Option.getD_some]
      exact ⟨ht, hcall⟩

/-- C8 witness: the sortedness statement instantiated at a concrete response. -/
theorem countries_sorted_desc_witness :
    List.Sorted (fun a b : CountryEmission => b.emissions.co2 ≤ a.emissions.co2)
      (processCountryEmissions [] "t" [cexShareRecord] 2023 2023).countries ∧
    ∀ r ∈ (processCountryEmissions [] "t" [cexShareRecord] 2023 2023).countries,
      r.country ≠ "" ∧ r.country ≠ "all" :=
  countries_sorted_desc [] "t" [cexShareRecord] 2023 2023 (by decide)

/-! ## C9: provenance of worldTotals -/

/-- C9 (amended): `worldTotals` is the unit conversion of the *first* raw
record's `worldEmissions` object (zeros when it is missing) — it does not
depend on the rest of the response and is not an aggregation of the returned
per-country records. -/
theorem worldTotals_from_first_record (nameCache : List (String × String)) (nowIso : String)
    (d : RawCountryRecord) (rest : List RawCountryRecord) (since toYear : ℤ) :
    (processCountryEmissions nameCache nowIso (d :: rest) since toYear).worldTotals =
      (processCountryEmissions nameCache nowIso [d] since toYear).worldTotals ∧
    (processCountryEmissions nameCache nowIso (d :: rest) since toYear).worldTotals =
      mkWorldTotals (gasOf d.worldEmissions) :=
  ⟨rfl, rfl⟩

/-- C9 counterexample: the returned `worldTotals.co2` (10) is neither the sum of
the returned per-country normalized CO2 values (2) nor the normalized sum of
their raw CO2 values (2), so `worldTotals` is not the aggregation of the
returned records. -/
theorem worldTotals_not_aggregation :
    (processCountryEmissions [] "t" [cexWorldRecordA, cexWorldRecordB] 2023 2023).worldTotals.co2
        = 10 ∧
    (((processCountryEmissions [] "t" [cexWorldRecordA, cexWorldRecordB] 2023 2023).countries.map
        (fun r => r.emissions.co2)).sum = 2) ∧
    (processCountryEmissions [] "t" [cexWorldRecordA, cexWorldRecordB] 2023 2023).worldTotals.co2
        ≠ ((processCountryEmissions [] "t" [cexWorldRecordA, cexWorldRecordB]
            2023 2023).countries.map (fun r => r.emissions.co2)).sum := by
  have hw : (processCountryEmissions [] "t" [cexWorldRecordA, cexWorldRecordB]
      2023 2023).worldTotals.co2 = jsRound ((10000000 : ℚ) / 1000000) := rfl
  have hw10 : (processCountryEmissions [] "t" [cexWorldRecordA, cexWorldRecordB]
      2023 2023).worldTotals.co2 = 10 := by
    rw [hw]
    norm_num [jsRound]
  have hperm : List.Perm
      ((processCountryEmissions [] "t" [cexWorldRecordA, cexWorldRecordB] 2023 2023).countries)
      [mkCountryEmission [] cexWorldRecordA, mkCountryEmission [] cexWorldRecordB] :=
    sortDescBy_perm (fun c : CountryEmission => (c.emissions.co2 : ℚ))
      [mkCountryEmission [] cexWorldRecordA, mkCountryEmission [] cexWorldRecordB]
  have hsum : (((processCountryEmissions [] "t" [cexWorldRecordA, cexWorldRecordB]
      2023 2023).countries.map (fun r => r.emissions.co2)).sum = 2) := by
    rw [(hperm.map (fun r => r.emissions.co2)).sum_eq]
    have h1 : (mkCountryEmission [] cexWorldRecordA).emissions.co2
        = jsRound ((1000000 : ℚ) / 1000000) := rfl
    have h2 : (mkCountryEmission [] cexWorldRecordB).emissions.co2
        = jsRound ((1000000 : ℚ) / 1000000) := rfl
    simp only [List.map_cons, List.map_nil, List.sum_cons, List.sum_nil, h1, h2]
    norm_num [jsRound]
  refine ⟨hw10, hsum, ?_⟩
  rw [hw10, hsum]
  decide

end EmissionLens
